import Mathlib

/-!
PebbleShop: the per-period request/response state machine.

A shallow embedding of `src/c/pebble-shop.c`.  The four file-level statics that
the callbacks read and write (`s_row_state`, `s_row_subtitle`, `s_last_updated`,
`s_selected`) form the `State` record; every C function that touches them is a
function on `State`.  An array access outside `[0, PERIOD_COUNT)` is undefined
behaviour in C and is the `none` result here.

Conventions.
* A C string is the list of its `char`s up to, and without, the terminating NUL;
  one list element stands for one byte.
* `int`, `int32_t` and `time_t` values are `Int`; the only arithmetic on them is
  `% PERIOD_COUNT`, C's truncating remainder, which is `Int.tmod`.
* What the Pebble SDK supplies (`dict_find`, `snprintf`, the outbox calls, the
  clock) is modelled by the small definitions of the first section; the
  generated `MESSAGE_KEY_*` constants are a parameter.
-/

namespace PebbleShop

/-! ## The SDK surface used by the program -/

/-- A C string: its bytes before the terminating NUL. -/
abbrev CString := List Char

/-- The `TupleType` enum of the SDK dictionary. -/
inductive TupleType where
  | TUPLE_BYTE_ARRAY
  | TUPLE_CSTRING
  | TUPLE_UINT
  | TUPLE_INT
  deriving DecidableEq, Repr

/-- The `value` union of a `Tuple`, seen through the two members the program
reads: `value->int32` and `value->cstring`. -/
structure TupleValue where
  int32 : Int
  cstring : CString
  deriving DecidableEq, Repr

/-- One key/value entry of an inbound dictionary. -/
structure Tuple where
  key : Nat
  type : TupleType
  value : TupleValue
  deriving DecidableEq, Repr

/-- The dictionary behind a `DictionaryIterator *`: its tuples in order. -/
abbrev DictionaryIterator := List Tuple

/-- The SDK lookup `dict_find(iter, key)`: the first tuple stored under `key`, or
`none` for the NULL result. -/
def dict_find (iter : DictionaryIterator) (key : Nat) : Option Tuple :=
  iter.find? (fun t => decide (t.key = key))

/-- The generated `MESSAGE_KEY_*` constants, whose values are assigned by the
build and are not part of the C file. -/
structure MessageKeys where
  MESSAGE_KEY_period : Nat
  MESSAGE_KEY_status : Nat
  MESSAGE_KEY_error : Nat
  MESSAGE_KEY_total : Nat
  MESSAGE_KEY_currency : Nat
  deriving DecidableEq, Repr

/-- The guard `t && t->type == TUPLE_CSTRING` together with the read of
`t->value->cstring` it protects: the string carried by a present string tuple. -/
def cstring_of (t : Option Tuple) : Option CString :=
  match t with
  | some tup => if tup.type = TupleType.TUPLE_CSTRING then some tup.value.cstring else none
  | none => none

/-- The effect of `snprintf(buf, size, ...)` on `buf`, given the fully formatted
text: at most `size - 1` bytes are stored (the last byte holds the NUL). -/
def snprintf (size : Nat) (formatted : CString) : CString :=
  formatted.take (size - 1)

/-- The SDK result code `APP_MSG_OK`. -/
def APP_MSG_OK : Int := 0

/-- What the transport reports during one `send_request_for`: the result of
`app_message_outbox_begin`, whether it handed back a non-NULL iterator, and the
result of `app_message_outbox_send`. -/
structure Transport where
  begin_res : Int
  iter_ok : Bool
  send_res : Int
  deriving DecidableEq, Repr

/-! ## The program state -/

/-- The enum constant `PERIOD_COUNT` (line 7). -/
abbrev PERIOD_COUNT : Nat := 3

/-- The enum `RowState` (line 10). -/
inductive RowState where
  | ROW_IDLE
  | ROW_LOADING
  | ROW_OK
  | ROW_ERROR
  deriving DecidableEq, Repr

/-- The size of one subtitle buffer, `sizeof(s_row_subtitle[period])` (line 12). -/
def SUBTITLE_SIZE : Nat := 32

/-- The statics of lines 11 to 14. -/
structure State where
  s_row_state : Fin PERIOD_COUNT → RowState
  s_row_subtitle : Fin PERIOD_COUNT → CString
  s_last_updated : Int
  s_selected : Int

/-- Static initialisation: zeroed arrays (`ROW_IDLE` is 0, an all-zero buffer is
the empty string), `s_last_updated = 0`, `s_selected = 0`. -/
def static_init : State where
  s_row_state := fun _ => RowState.ROW_IDLE
  s_row_subtitle := fun _ => []
  s_last_updated := 0
  s_selected := 0

/-- An `int` used as subscript of `s_row_state` or `s_row_subtitle`: the cell it
denotes when it lies in `[0, PERIOD_COUNT)`, `none` when the access is out of
bounds. -/
def index (i : Int) : Option (Fin PERIOD_COUNT) :=
  if h : 0 ≤ i ∧ i < PERIOD_COUNT then some ⟨i.toNat, by omega⟩ else none

/-! ## The functions of the program -/

/-- The function `menu_update_row` (lines 25 to 33): it only invalidates the menu
layer, so the statics are returned as they are. -/
def menu_update_row (_period : Int) (s : State) : State := s

/-- The function `send_request_for` (lines 35 to 57).  The second component is
the list of requests handed over to the transport by this call: the `period`
written by `dict_write_int32` when both outbox calls report `APP_MSG_OK`. -/
def send_request_for (tr : Transport) (period : Int) (s : State) :
    Option (State × List Int) :=
  match index period with
  | none => none
  | some i =>
    let s1 : State :=
      { s with
        s_row_state := Function.update s.s_row_state i RowState.ROW_LOADING
        s_row_subtitle :=
          Function.update s.s_row_subtitle i (snprintf SUBTITLE_SIZE "Loading...".toList) }
    let s2 := menu_update_row period s1
    if tr.begin_res ≠ APP_MSG_OK ∨ tr.iter_ok = false then
      some (s2, [])
    else if tr.send_res ≠ APP_MSG_OK then
      some (s2, [])
    else
      some (s2, [period])

/-- The local `period` of `inbox_received_callback` after lines 60 to 65: the
selection when the message has no period tuple, otherwise the tuple's `int32`
reduced by `% PERIOD_COUNT` and set to 0 when that is negative. -/
def received_period (K : MessageKeys) (iter : DictionaryIterator) (s : State) : Int :=
  match dict_find iter K.MESSAGE_KEY_period with
  | some period_t =>
    let period := Int.tmod period_t.value.int32 PERIOD_COUNT
    if period < 0 then 0 else period
  | none => s.s_selected

/-- The function `inbox_received_callback` (lines 59 to 97); `now` is the value
returned by `time(NULL)`. -/
def inbox_received_callback (K : MessageKeys) (now : Int) (iter : DictionaryIterator)
    (s : State) : Option State :=
  let period := received_period K iter s
  let status := dict_find iter K.MESSAGE_KEY_status
  let error := dict_find iter K.MESSAGE_KEY_error
  let total := dict_find iter K.MESSAGE_KEY_total
  let currency := dict_find iter K.MESSAGE_KEY_currency
  match cstring_of error with
  | some e =>
    (index period).map fun i =>
      menu_update_row period
        { s with
          s_row_state := Function.update s.s_row_state i RowState.ROW_ERROR
          s_row_subtitle :=
            Function.update s.s_row_subtitle i (snprintf SUBTITLE_SIZE ("Error: ".toList ++ e)) }
  | none =>
    if cstring_of status = some "error".toList then
      (index period).map fun i =>
        menu_update_row period
          { s with
            s_row_state := Function.update s.s_row_state i RowState.ROW_ERROR
            s_row_subtitle :=
              Function.update s.s_row_subtitle i (snprintf SUBTITLE_SIZE "Error".toList) }
    else
      match cstring_of total, cstring_of currency with
      | some v, some c =>
        (index period).map fun i =>
          menu_update_row period
            { s with
              s_row_state := Function.update s.s_row_state i RowState.ROW_OK
              s_row_subtitle :=
                Function.update s.s_row_subtitle i
                  (snprintf SUBTITLE_SIZE (v ++ " ".toList ++ c))
              s_last_updated := now }
      | _, _ =>
        match cstring_of status with
        | some st =>
          (index period).map fun i =>
            menu_update_row period
              { s with
                s_row_subtitle :=
                  Function.update s.s_row_subtitle i
                    (snprintf SUBTITLE_SIZE ("Status: ".toList ++ st)) }
        | none => some s

/-- The function `inbox_dropped_callback` (lines 99 to 101): it only logs. -/
def inbox_dropped_callback (_reason : Int) (s : State) : State := s

/-- The function `outbox_failed_callback` (lines 103 to 105): it only logs. -/
def outbox_failed_callback (_iter : DictionaryIterator) (_reason : Int) (s : State) : State := s

/-- The function `outbox_sent_callback` (lines 107 to 109): it only logs. -/
def outbox_sent_callback (_iter : DictionaryIterator) (s : State) : State := s

/-- The function `menu_select_callback` (lines 142 to 145); `row` is the
`uint16_t` row of the selected cell. -/
def menu_select_callback (tr : Transport) (row : Nat) (s : State) :
    Option (State × List Int) :=
  let s1 : State := { s with s_selected := (row : Int) }
  send_request_for tr s1.s_selected s1

/-- The row initialisation loop of `prv_window_load` (lines 151 to 155). -/
def prv_window_load (s : State) : State :=
  (List.finRange PERIOD_COUNT).foldl
    (fun st i =>
      { st with
        s_row_state := Function.update st.s_row_state i RowState.ROW_IDLE
        s_row_subtitle := Function.update st.s_row_subtitle i (snprintf SUBTITLE_SIZE "--".toList) })
    s

/-- The refresh loop of `prv_init` (lines 195 to 197) over the periods still to
be requested; `tr p` is what the transport reports during the call for `p`.
The requests handed to the transport are collected in the order of the calls. -/
def prv_init_loop (tr : Nat → Transport) : List Nat → State → Option (State × List Int)
  | [], s => some (s, [])
  | p :: ps, s =>
    match send_request_for (tr p) (p : Int) s with
    | none => none
    | some (s1, out1) =>
      match prv_init_loop tr ps s1 with
      | none => none
      | some (s2, out2) => some (s2, out1 ++ out2)

/-- The function `prv_init` (lines 177 to 198), as far as the statics go:
`window_stack_push` runs the load handler `prv_window_load`, then a request is
issued for every period from 0 up to `PERIOD_COUNT - 1`. -/
def prv_init (tr : Nat → Transport) (s : State) : Option (State × List Int) :=
  prv_init_loop tr (List.range PERIOD_COUNT) (prv_window_load s)

/-! ## The event loop -/

/-- The guards under which `inbox_received_callback` reaches line 86, the only
place that stores `ROW_OK`: no string error tuple, no string status equal to
`"error"`, and both a string total and a string currency. -/
def classified_ok (K : MessageKeys) (iter : DictionaryIterator) : Bool :=
  (cstring_of (dict_find iter K.MESSAGE_KEY_error)).isNone
    && decide (cstring_of (dict_find iter K.MESSAGE_KEY_status) ≠ some "error".toList)
    && (cstring_of (dict_find iter K.MESSAGE_KEY_total)).isSome
    && (cstring_of (dict_find iter K.MESSAGE_KEY_currency)).isSome

/-- What can act on the statics once `prv_window_load` has run: the callbacks
registered at lines 158 to 165 and 188 to 191, and a request issued directly. -/
inductive Event where
  | inbox_received (iter : DictionaryIterator) (now : Int)
  | inbox_dropped (reason : Int)
  | outbox_failed (iter : DictionaryIterator) (reason : Int)
  | outbox_sent (iter : DictionaryIterator)
  | menu_select (row : Nat) (tr : Transport)
  | issue_request (period : Int) (tr : Transport)

/-- Dispatch of one event to the function that serves it: the four AppMessage
callbacks, the select click, and a direct call of `send_request_for` as made by
the refresh loop of `prv_init` (lines 195 to 197).  The second component lists
the requests handed to the transport meanwhile. -/
def handle_event (K : MessageKeys) (ev : Event) (s : State) : Option (State × List Int) :=
  match ev with
  | Event.inbox_received iter now => (inbox_received_callback K now iter s).map fun t => (t, [])
  | Event.inbox_dropped reason => some (inbox_dropped_callback reason s, [])
  | Event.outbox_failed iter reason => some (outbox_failed_callback iter reason s, [])
  | Event.outbox_sent iter => some (outbox_sent_callback iter s, [])
  | Event.menu_select row tr => menu_select_callback tr row s
  | Event.issue_request period tr => send_request_for tr period s

/-- An event that is a received message taking the `ROW_OK` branch. -/
def Event.is_ok (K : MessageKeys) : Event → Bool
  | Event.inbox_received iter _ => classified_ok K iter
  | _ => false

/-- A sequence of events served one after the other, as `app_event_loop` does;
`none` as soon as one of them makes an out-of-bounds access. -/
def run (K : MessageKeys) : List Event → State → Option State
  | [], s => some s
  | ev :: evs, s =>
    match handle_event K ev s with
    | none => none
    | some r => run K evs r.1

/-- Both outbox calls of one `send_request_for` succeed (the tests of lines 43
and 52 are false). -/
def Transport.accepts (tr : Transport) : Bool :=
  decide (tr.begin_res = APP_MSG_OK) && tr.iter_ok && decide (tr.send_res = APP_MSG_OK)

/-- The clock readings `time(NULL)` of the received messages of a sequence never
go back: each is at least `t` and at least the one before it. -/
def clock_from (t : Int) : List Event → Bool
  | [] => true
  | ev :: evs =>
    match ev with
    | Event.inbox_received _ now => decide (t ≤ now) && clock_from now evs
    | _ => clock_from t evs

/-- The subscripts an event passes on are rows of the menu: a select click is
on one of the `PERIOD_COUNT` rows that `menu_get_num_rows_callback` (lines 116
to 118) announces, and a request issued directly is for a period of the loop of
line 195. -/
def Event.in_range : Event → Bool
  | Event.menu_select row _ => decide (row < PERIOD_COUNT)
  | Event.issue_request period _ => decide (0 ≤ period ∧ period < PERIOD_COUNT)
  | _ => true

/-- The rows as the menu shows them: state and subtitle of each period in order. -/
def State.rows (s : State) : List (RowState × CString) :=
  (List.finRange PERIOD_COUNT).map fun i => (s.s_row_state i, s.s_row_subtitle i)

/-- The changes that one call of `send_request_for` or of
`inbox_received_callback` can make to a row, read off their assignments: none,
lines 37 and 38, lines 72 and 73, lines 79 and 80, lines 86 and 87, line 94. -/
def row_step (st : RowState) (text : CString) (st' : RowState) (text' : CString) : Prop :=
  (st' = st ∧ text' = text) ∨
  (st' = RowState.ROW_LOADING ∧ text' = "Loading...".toList) ∨
  (st' = RowState.ROW_ERROR ∧ ∃ e : CString, text' = List.take 31 ("Error: ".toList ++ e)) ∨
  (st' = RowState.ROW_ERROR ∧ text' = "Error".toList) ∨
  (st' = RowState.ROW_OK ∧ ∃ v c : CString, text' = List.take 31 (v ++ " ".toList ++ c)) ∨
  (st' = st ∧ ∃ t : CString, text' = List.take 31 ("Status: ".toList ++ t))

/-! ## The consistency relation of the data model -/

/-- The relation between the state of an item and its text as the data model
words it: loading placeholder, `"<value> <currency>"`, an error message, or the
neutral placeholder. -/
def spec_consistent (st : RowState) (text : CString) : Prop :=
  match st with
  | RowState.ROW_IDLE => text = "--".toList
  | RowState.ROW_LOADING => text = "Loading...".toList
  | RowState.ROW_OK => ∃ v c : CString, text = v ++ " ".toList ++ c
  | RowState.ROW_ERROR => text = "Error".toList ∨ ∃ e : CString, text = "Error: ".toList ++ e

/-- The relation that the code maintains: the text is an informational
`"Status: ..."` line, left by line 94 under any state, or it is as in
`spec_consistent` with the value line cut to the 31 bytes of the buffer. -/
def text_consistent (st : RowState) (text : CString) : Prop :=
  (∃ t : CString, text = "Status: ".toList ++ t) ∨
  match st with
  | RowState.ROW_IDLE => text = "--".toList
  | RowState.ROW_LOADING => text = "Loading...".toList
  | RowState.ROW_OK => ∃ v c : CString, text = List.take 31 (v ++ " ".toList ++ c)
  | RowState.ROW_ERROR => text = "Error".toList ∨ ∃ e : CString, text = "Error: ".toList ++ e

/-! ## Sample data -/

/-- A concrete key assignment, in the order the fields are listed. -/
def sample_keys : MessageKeys where
  MESSAGE_KEY_period := 10000
  MESSAGE_KEY_status := 10001
  MESSAGE_KEY_error := 10002
  MESSAGE_KEY_total := 10003
  MESSAGE_KEY_currency := 10004

/-- An integer tuple stored under `key`. -/
def int_tuple (key : Nat) (v : Int) : Tuple :=
  { key := key, type := TupleType.TUPLE_INT, value := { int32 := v, cstring := [] } }

/-- A string tuple stored under `key`. -/
def cstring_tuple (key : Nat) (v : String) : Tuple :=
  { key := key, type := TupleType.TUPLE_CSTRING, value := { int32 := 0, cstring := v.toList } }

/-- The statics once the window has been loaded: every row idle with `"--"`. -/
def loaded : State := prv_window_load static_init

/-- A reply for period 1 that carries an error text and also a value with its
currency. -/
def msg_error_and_value : DictionaryIterator :=
  [int_tuple sample_keys.MESSAGE_KEY_period 1,
   cstring_tuple sample_keys.MESSAGE_KEY_error "timeout",
   cstring_tuple sample_keys.MESSAGE_KEY_total "42.50",
   cstring_tuple sample_keys.MESSAGE_KEY_currency "USD"]

/-- A reply without period tuple that carries a value and its currency. -/
def msg_value : DictionaryIterator :=
  [cstring_tuple sample_keys.MESSAGE_KEY_total "42.50",
   cstring_tuple sample_keys.MESSAGE_KEY_currency "USD",
   cstring_tuple sample_keys.MESSAGE_KEY_status "ok"]

/-- A reply for period 2 whose status is `"error"`, with a value and a currency. -/
def msg_status_error : DictionaryIterator :=
  [int_tuple sample_keys.MESSAGE_KEY_period 2,
   cstring_tuple sample_keys.MESSAGE_KEY_status "error",
   cstring_tuple sample_keys.MESSAGE_KEY_total "42.50",
   cstring_tuple sample_keys.MESSAGE_KEY_currency "USD"]

/-- A reply for period 5 with an informational status and a value without
currency. -/
def msg_status : DictionaryIterator :=
  [int_tuple sample_keys.MESSAGE_KEY_period 5,
   cstring_tuple sample_keys.MESSAGE_KEY_status "fetching",
   cstring_tuple sample_keys.MESSAGE_KEY_total "42.50"]

/-- A reply that carries a period and a value, and nothing else. -/
def msg_value_only : DictionaryIterator :=
  [int_tuple sample_keys.MESSAGE_KEY_period 1,
   cstring_tuple sample_keys.MESSAGE_KEY_total "42.50"]

/-- A reply whose period tuple holds -1, with an error text. -/
def msg_negative_period : DictionaryIterator :=
  [int_tuple sample_keys.MESSAGE_KEY_period (-1),
   cstring_tuple sample_keys.MESSAGE_KEY_error "x"]

/-- The state `loaded` after `msg_status_error` has been received: item 2 is in
error with the bare text. -/
def loaded_after_status_error : State :=
  { loaded with
    s_row_state := Function.update loaded.s_row_state 2 RowState.ROW_ERROR
    s_row_subtitle := Function.update loaded.s_row_subtitle 2 "Error".toList }

/-- A transport report with both outbox calls successful. -/
def tr_ok : Transport := { begin_res := 0, iter_ok := true, send_res := 0 }

/-- A transport report with a busy outbox (`APP_MSG_BUSY`) at the begin call. -/
def tr_busy : Transport := { begin_res := 8, iter_ok := false, send_res := 0 }

/-- The reply `{id:1, value:"42.50", currency:"USD"}` of the scenario. -/
def msg_scenario_value : DictionaryIterator :=
  [int_tuple sample_keys.MESSAGE_KEY_period 1,
   cstring_tuple sample_keys.MESSAGE_KEY_total "42.50",
   cstring_tuple sample_keys.MESSAGE_KEY_currency "USD"]

/-- The reply `{id:0, error:"timeout"}` of the scenario. -/
def msg_scenario_error : DictionaryIterator :=
  [int_tuple sample_keys.MESSAGE_KEY_period 0,
   cstring_tuple sample_keys.MESSAGE_KEY_error "timeout"]

/-- A reply for period 0 whose value alone is longer than the subtitle buffer. -/
def msg_long_value : DictionaryIterator :=
  [int_tuple sample_keys.MESSAGE_KEY_period 0,
   cstring_tuple sample_keys.MESSAGE_KEY_total "1234567890123456789012345678901234567890",
   cstring_tuple sample_keys.MESSAGE_KEY_currency "USD"]

/-- A reply without period tuple that carries an error text. -/
def msg_error_no_period : DictionaryIterator :=
  [cstring_tuple sample_keys.MESSAGE_KEY_error "timeout"]

/-- The three requests that open the scenario of the testable properties. -/
def scenario_requests : List Event :=
  [Event.issue_request 0 tr_ok, Event.issue_request 1 tr_ok, Event.issue_request 2 tr_ok]

/-- The row every period shows while its request is in flight. -/
def loading_row : RowState × CString := (RowState.ROW_LOADING, "Loading...".toList)

/-- The state `loaded` after `msg_value` has been received at clock reading
1700000000: the selected item 0 shows the value. -/
def loaded_after_value : State :=
  { loaded with
    s_row_state := Function.update loaded.s_row_state 0 RowState.ROW_OK
    s_row_subtitle := Function.update loaded.s_row_subtitle 0 "42.50 USD".toList
    s_last_updated := 1700000000 }

/-- A dropped message, a value reply at 1700000000, an acknowledged send. -/
def events_around_value : List Event :=
  [Event.inbox_dropped 2, Event.inbox_received msg_value 1700000000, Event.outbox_sent []]

/-- The state `loaded` after a request for period 2: row 2 is loading. -/
def loaded_requested_2 : State :=
  { loaded with
    s_row_state := Function.update loaded.s_row_state 2 RowState.ROW_LOADING
    s_row_subtitle := Function.update loaded.s_row_subtitle 2 "Loading...".toList }

/-- The state `loaded_requested_2` after `msg_status` has been received: row 2
is still loading and shows the status line. -/
def requested_2_status : State :=
  { loaded_requested_2 with
    s_row_subtitle :=
      Function.update loaded_requested_2.s_row_subtitle 2 "Status: fetching".toList }

/-- The state `requested_2_status` after `msg_status_error` has been received:
row 2 is in error. -/
def requested_2_error : State :=
  { requested_2_status with
    s_row_state := Function.update requested_2_status.s_row_state 2 RowState.ROW_ERROR
    s_row_subtitle := Function.update requested_2_status.s_row_subtitle 2 "Error".toList }

/-- A status line, a status of `"error"` and a dropped message, all for period 2. -/
def events_after_request_2 : List Event :=
  [Event.inbox_received msg_status 1700000000,
   Event.inbox_received msg_status_error 1700000001,
   Event.inbox_dropped 2]

/-- The transport at startup when only the first request finds the outbox free:
the calls for periods 1 and 2 are refused as busy. -/
def tr_first_only (p : Nat) : Transport := if p = 0 then tr_ok else tr_busy

/-! ## Auxiliary facts -/

theorem tmod_three_nonpos (k : Int) (h : k < 0) : Int.tmod k 3 ≤ 0 := by
  cases k with
  | ofNat n => exact absurd h (by simp)
  | negSucc m =>
    have e : Int.tmod (Int.negSucc m) 3 = -Int.ofNat (Nat.succ m % 3) := rfl
    rw [e]
    simp
    omega

/-- The clamp of lines 63 and 64 in closed form. -/
theorem clamp_tmod (k : Int) :
    (if Int.tmod k 3 < 0 then 0 else Int.tmod k 3) = if 0 ≤ k then k % 3 else 0 := by
  by_cases hk : 0 ≤ k
  · have e : Int.tmod k 3 = k % 3 := Int.tmod_eq_emod hk (by decide)
    have h0 : 0 ≤ k % 3 := Int.emod_nonneg k (by decide)
    rw [e, if_pos hk, if_neg (by omega)]
  · have h1 := tmod_three_nonpos k (by omega)
    rw [if_neg hk]
    split <;> omega

theorem received_period_some (K : MessageKeys) (iter : DictionaryIterator) (s : State)
    (period_t : Tuple) (h : dict_find iter K.MESSAGE_KEY_period = some period_t) :
    received_period K iter s =
      if 0 ≤ period_t.value.int32 then period_t.value.int32 % 3 else 0 := by
  unfold received_period
  rw [h]
  exact clamp_tmod _

theorem received_period_none (K : MessageKeys) (iter : DictionaryIterator) (s : State)
    (h : dict_find iter K.MESSAGE_KEY_period = none) :
    received_period K iter s = s.s_selected := by
  unfold received_period
  rw [h]

theorem index_eq_some (p : Int) (h0 : 0 ≤ p) (h1 : p < 3) :
    ∃ i : Fin PERIOD_COUNT, index p = some i ∧ (i : Int) = p := by
  have hlt : p.toNat < PERIOD_COUNT := by
    show p.toNat < 3
    omega
  refine ⟨⟨p.toNat, hlt⟩, ?_, ?_⟩
  · unfold index
    rw [dif_pos ⟨h0, by simpa using h1⟩]
  · exact Int.toNat_of_nonneg h0

theorem index_val (p : Int) (i : Fin PERIOD_COUNT) (h : index p = some i) : (i : Int) = p := by
  unfold index at h
  split at h
  · rename_i hp
    have e := Option.some.inj h
    subst e
    exact Int.toNat_of_nonneg hp.1
  · exact absurd h (by simp)

theorem received_period_bounds (K : MessageKeys) (iter : DictionaryIterator) (s : State)
    (period_t : Tuple) (h : dict_find iter K.MESSAGE_KEY_period = some period_t) :
    0 ≤ received_period K iter s ∧ received_period K iter s < 3 := by
  rw [received_period_some K iter s period_t h]
  split <;> omega

/-- Line 71 taken: the error branch. -/
theorem callback_error (K : MessageKeys) (now : Int) (iter : DictionaryIterator) (s : State)
    (i : Fin PERIOD_COUNT) (e : CString)
    (hi : index (received_period K iter s) = some i)
    (he : cstring_of (dict_find iter K.MESSAGE_KEY_error) = some e) :
    inbox_received_callback K now iter s = some
      { s with
        s_row_state := Function.update s.s_row_state i RowState.ROW_ERROR
        s_row_subtitle :=
          Function.update s.s_row_subtitle i (snprintf SUBTITLE_SIZE ("Error: ".toList ++ e)) } := by
  simp [inbox_received_callback, he, hi, menu_update_row]

/-- Line 78 taken: the status-is-error branch. -/
theorem callback_status_error (K : MessageKeys) (now : Int) (iter : DictionaryIterator)
    (s : State) (i : Fin PERIOD_COUNT)
    (hi : index (received_period K iter s) = some i)
    (he : cstring_of (dict_find iter K.MESSAGE_KEY_error) = none)
    (hs : cstring_of (dict_find iter K.MESSAGE_KEY_status) = some "error".toList) :
    inbox_received_callback K now iter s = some
      { s with
        s_row_state := Function.update s.s_row_state i RowState.ROW_ERROR
        s_row_subtitle := Function.update s.s_row_subtitle i (snprintf SUBTITLE_SIZE "Error".toList) } := by
  simp [inbox_received_callback, he, hs, hi, menu_update_row]

/-- Line 85 taken: the value branch. -/
theorem callback_ok (K : MessageKeys) (now : Int) (iter : DictionaryIterator)
    (s : State) (i : Fin PERIOD_COUNT) (v c : CString)
    (hi : index (received_period K iter s) = some i)
    (he : cstring_of (dict_find iter K.MESSAGE_KEY_error) = none)
    (hs : cstring_of (dict_find iter K.MESSAGE_KEY_status) ≠ some "error".toList)
    (hv : cstring_of (dict_find iter K.MESSAGE_KEY_total) = some v)
    (hc : cstring_of (dict_find iter K.MESSAGE_KEY_currency) = some c) :
    inbox_received_callback K now iter s = some
      { s with
        s_row_state := Function.update s.s_row_state i RowState.ROW_OK
        s_row_subtitle :=
          Function.update s.s_row_subtitle i (snprintf SUBTITLE_SIZE (v ++ " ".toList ++ c))
        s_last_updated := now } := by
  unfold inbox_received_callback
  simp only [he, hv, hc, hi]
  rw [if_neg hs]
  rfl

/-- Line 93 taken: the informational status branch. -/
theorem callback_status (K : MessageKeys) (now : Int) (iter : DictionaryIterator)
    (s : State) (i : Fin PERIOD_COUNT) (st : CString)
    (hi : index (received_period K iter s) = some i)
    (he : cstring_of (dict_find iter K.MESSAGE_KEY_error) = none)
    (hs : cstring_of (dict_find iter K.MESSAGE_KEY_status) = some st)
    (hne : st ≠ "error".toList)
    (hvc : ¬ ((cstring_of (dict_find iter K.MESSAGE_KEY_total)).isSome = true ∧
              (cstring_of (dict_find iter K.MESSAGE_KEY_currency)).isSome = true)) :
    inbox_received_callback K now iter s = some
      { s with
        s_row_subtitle :=
          Function.update s.s_row_subtitle i (snprintf SUBTITLE_SIZE ("Status: ".toList ++ st)) } := by
  unfold inbox_received_callback
  simp only [he, hs, hi]
  rw [if_neg (by simpa using hne)]
  split
  · rename_i hv hc
    exact absurd ⟨by simp [hv], by simp [hc]⟩ hvc
  · simp [menu_update_row]

/-- No guard taken: the function falls off its end. -/
theorem callback_none (K : MessageKeys) (now : Int) (iter : DictionaryIterator) (s : State)
    (he : cstring_of (dict_find iter K.MESSAGE_KEY_error) = none)
    (hs : cstring_of (dict_find iter K.MESSAGE_KEY_status) = none)
    (hvc : ¬ ((cstring_of (dict_find iter K.MESSAGE_KEY_total)).isSome = true ∧
              (cstring_of (dict_find iter K.MESSAGE_KEY_currency)).isSome = true)) :
    inbox_received_callback K now iter s = some s := by
  unfold inbox_received_callback
  simp only [he, hs]
  rw [if_neg (by simp)]
  split
  · rename_i hv hc
    exact absurd ⟨by simp [hv], by simp [hc]⟩ hvc
  · rfl

/-- The message target is a cell of the arrays as soon as the fallback
selection is one. -/
theorem target_valid (K : MessageKeys) (iter : DictionaryIterator) (s : State)
    (hsel : dict_find iter K.MESSAGE_KEY_period = none →
      0 ≤ s.s_selected ∧ s.s_selected < PERIOD_COUNT) :
    ∃ i : Fin PERIOD_COUNT, index (received_period K iter s) = some i := by
  cases hp : dict_find iter K.MESSAGE_KEY_period with
  | none =>
    obtain ⟨h0, h1⟩ := hsel hp
    rw [received_period_none K iter s hp]
    obtain ⟨i, hi, _⟩ := index_eq_some s.s_selected h0 (by simpa using h1)
    exact ⟨i, hi⟩
  | some period_t =>
    obtain ⟨h0, h1⟩ := received_period_bounds K iter s period_t hp
    obtain ⟨i, hi, _⟩ := index_eq_some _ h0 h1
    exact ⟨i, hi⟩

/-- Whatever branch runs, only cell `i` of the two arrays is written, and the
selection is never written. -/
theorem callback_frame (K : MessageKeys) (now : Int) (iter : DictionaryIterator) (s : State)
    (i : Fin PERIOD_COUNT) (hi : index (received_period K iter s) = some i) :
    ∃ s', inbox_received_callback K now iter s = some s' ∧
      (∀ j, j ≠ i → s'.s_row_state j = s.s_row_state j ∧
        s'.s_row_subtitle j = s.s_row_subtitle j) ∧
      s'.s_selected = s.s_selected := by
  cases he : cstring_of (dict_find iter K.MESSAGE_KEY_error) with
  | some e =>
    refine ⟨_, callback_error K now iter s i e hi he, ?_, rfl⟩
    intro j hj
    simp [Function.update_noteq hj]
  | none =>
    by_cases hs : cstring_of (dict_find iter K.MESSAGE_KEY_status) = some "error".toList
    · refine ⟨_, callback_status_error K now iter s i hi he hs, ?_, rfl⟩
      intro j hj
      simp [Function.update_noteq hj]
    · by_cases hvc : (cstring_of (dict_find iter K.MESSAGE_KEY_total)).isSome = true ∧
          (cstring_of (dict_find iter K.MESSAGE_KEY_currency)).isSome = true
      · obtain ⟨v, hv⟩ := Option.isSome_iff_exists.mp hvc.1
        obtain ⟨c, hc⟩ := Option.isSome_iff_exists.mp hvc.2
        refine ⟨_, callback_ok K now iter s i v c hi he hs hv hc, ?_, rfl⟩
        intro j hj
        simp [Function.update_noteq hj]
      · cases hst : cstring_of (dict_find iter K.MESSAGE_KEY_status) with
        | none => exact ⟨s, callback_none K now iter s he hst hvc, fun _ _ => ⟨rfl, rfl⟩, rfl⟩
        | some st =>
          have hne : st ≠ "error".toList := by
            intro h
            exact hs (by rw [hst, h])
          refine ⟨_, callback_status K now iter s i st hi he hst hne hvc, ?_, rfl⟩
          intro j hj
          simp [Function.update_noteq hj]

/-- The state written by `send_request_for` does not depend on what the
transport reports. -/
theorem send_request_for_state (tr : Transport) (period : Int) (s : State)
    (i : Fin PERIOD_COUNT) (hi : index period = some i) :
    ∃ out, send_request_for tr period s = some
      ({ s with
         s_row_state := Function.update s.s_row_state i RowState.ROW_LOADING
         s_row_subtitle :=
           Function.update s.s_row_subtitle i (snprintf SUBTITLE_SIZE "Loading...".toList) },
       out) := by
  unfold send_request_for
  simp only [hi, menu_update_row]
  split
  · exact ⟨[], rfl⟩
  · split
    · exact ⟨[], rfl⟩
    · exact ⟨[period], rfl⟩

/-- A call of `send_request_for` leaves `s_last_updated` and `s_selected` alone. -/
theorem send_request_for_keeps (tr : Transport) (period : Int) (s : State)
    (r : State × List Int) (h : send_request_for tr period s = some r) :
    r.1.s_last_updated = s.s_last_updated ∧ r.1.s_selected = s.s_selected := by
  cases hi : index period with
  | none => simp [send_request_for, hi] at h
  | some i =>
    obtain ⟨out, ho⟩ := send_request_for_state tr period s i hi
    rw [ho] at h
    have e := Option.some.inj h
    subst e
    exact ⟨rfl, rfl⟩

/-- A received message leaves `s_last_updated` alone unless it takes the
`ROW_OK` branch. -/
theorem callback_keeps_time (K : MessageKeys) (now : Int) (iter : DictionaryIterator)
    (s s' : State) (hnot : classified_ok K iter = false)
    (h : inbox_received_callback K now iter s = some s') :
    s'.s_last_updated = s.s_last_updated := by
  cases hi : index (received_period K iter s) with
  | none =>
    unfold inbox_received_callback at h
    simp only [hi, Option.map_none'] at h
    split at h
    · exact absurd h (by simp)
    · split at h
      · exact absurd h (by simp)
      · split at h
        · exact absurd h (by simp)
        · split at h
          · exact absurd h (by simp)
          · have e := Option.some.inj h
            subst e
            rfl
  | some i =>
    cases he : cstring_of (dict_find iter K.MESSAGE_KEY_error) with
    | some e =>
      rw [callback_error K now iter s i e hi he] at h
      have e := Option.some.inj h
      subst e
      rfl
    | none =>
      by_cases hs : cstring_of (dict_find iter K.MESSAGE_KEY_status) = some "error".toList
      · rw [callback_status_error K now iter s i hi he hs] at h
        have e := Option.some.inj h
        subst e
        rfl
      · have hvc : ¬ ((cstring_of (dict_find iter K.MESSAGE_KEY_total)).isSome = true ∧
            (cstring_of (dict_find iter K.MESSAGE_KEY_currency)).isSome = true) := by
          intro hvc
          have hok : classified_ok K iter = true := by
            simp only [classified_ok, he, hvc.1, hvc.2, Option.isNone_none, Bool.and_true,
              Bool.true_and, decide_eq_true_eq]
            exact hs
          rw [hok] at hnot
          exact absurd hnot (by simp)
        cases hst : cstring_of (dict_find iter K.MESSAGE_KEY_status) with
        | none =>
          rw [callback_none K now iter s he hst hvc] at h
          have e := Option.some.inj h
          subst e
          rfl
        | some st =>
          have hne : st ≠ "error".toList := by
            intro hh
            exact hs (by rw [hst, hh])
          rw [callback_status K now iter s i st hi he hst hne hvc] at h
          have e := Option.some.inj h
          subst e
          rfl

/-- Every way `inbox_received_callback` can return: without a write, or after
the writes of one of its four branches at the cell of the target. -/
theorem callback_cases (K : MessageKeys) (now : Int) (iter : DictionaryIterator)
    (s s' : State) (h : inbox_received_callback K now iter s = some s') :
    s' = s ∨ ∃ i, index (received_period K iter s) = some i ∧
      ((∃ e : CString, s' =
          { s with
            s_row_state := Function.update s.s_row_state i RowState.ROW_ERROR
            s_row_subtitle :=
              Function.update s.s_row_subtitle i
                (snprintf SUBTITLE_SIZE ("Error: ".toList ++ e)) }) ∨
        s' =
          { s with
            s_row_state := Function.update s.s_row_state i RowState.ROW_ERROR
            s_row_subtitle :=
              Function.update s.s_row_subtitle i (snprintf SUBTITLE_SIZE "Error".toList) } ∨
        (∃ v c : CString, s' =
          { s with
            s_row_state := Function.update s.s_row_state i RowState.ROW_OK
            s_row_subtitle :=
              Function.update s.s_row_subtitle i
                (snprintf SUBTITLE_SIZE (v ++ " ".toList ++ c))
            s_last_updated := now }) ∨
        (∃ st : CString, s' =
          { s with
            s_row_subtitle :=
              Function.update s.s_row_subtitle i
                (snprintf SUBTITLE_SIZE ("Status: ".toList ++ st)) })) := by
  cases hi : index (received_period K iter s) with
  | none =>
    left
    unfold inbox_received_callback at h
    simp only [hi, Option.map_none'] at h
    split at h
    · exact absurd h (by simp)
    · split at h
      · exact absurd h (by simp)
      · split at h
        · exact absurd h (by simp)
        · split at h
          · exact absurd h (by simp)
          · exact (Option.some.inj h).symm
  | some i =>
    cases he : cstring_of (dict_find iter K.MESSAGE_KEY_error) with
    | some e =>
      rw [callback_error K now iter s i e hi he] at h
      exact Or.inr ⟨i, rfl, Or.inl ⟨e, (Option.some.inj h).symm⟩⟩
    | none =>
      by_cases hs : cstring_of (dict_find iter K.MESSAGE_KEY_status) = some "error".toList
      · rw [callback_status_error K now iter s i hi he hs] at h
        exact Or.inr ⟨i, rfl, Or.inr (Or.inl (Option.some.inj h).symm)⟩
      · by_cases hvc : (cstring_of (dict_find iter K.MESSAGE_KEY_total)).isSome = true ∧
            (cstring_of (dict_find iter K.MESSAGE_KEY_currency)).isSome = true
        · obtain ⟨v, hv⟩ := Option.isSome_iff_exists.mp hvc.1
          obtain ⟨c, hc⟩ := Option.isSome_iff_exists.mp hvc.2
          rw [callback_ok K now iter s i v c hi he hs hv hc] at h
          exact Or.inr ⟨i, rfl, Or.inr (Or.inr (Or.inl ⟨v, c, (Option.some.inj h).symm⟩))⟩
        · cases hst : cstring_of (dict_find iter K.MESSAGE_KEY_status) with
          | none =>
            rw [callback_none K now iter s he hst hvc] at h
            exact Or.inl (Option.some.inj h).symm
          | some st =>
            have hne : st ≠ "error".toList := by
              intro hh
              exact hs (by rw [hst, hh])
            rw [callback_status K now iter s i st hi he hst hne hvc] at h
            exact Or.inr ⟨i, rfl, Or.inr (Or.inr (Or.inr ⟨st, (Option.some.inj h).symm⟩))⟩

/-- A received message changes each row by one of the ways of `row_step`, and
never the selection. -/
theorem callback_row (K : MessageKeys) (now : Int) (iter : DictionaryIterator)
    (s s' : State) (h : inbox_received_callback K now iter s = some s') :
    (∀ j, row_step (s.s_row_state j) (s.s_row_subtitle j)
      (s'.s_row_state j) (s'.s_row_subtitle j)) ∧
    s'.s_selected = s.s_selected := by
  rcases callback_cases K now iter s s' h with h0 | ⟨i, _, h1 | h1 | h1 | h1⟩
  · subst h0
    exact ⟨fun j => Or.inl ⟨rfl, rfl⟩, rfl⟩
  · obtain ⟨e, he⟩ := h1
    subst he
    refine ⟨fun j => ?_, rfl⟩
    by_cases hj : j = i
    · subst hj
      exact Or.inr (Or.inr (Or.inl ⟨by simp, e, by simp [snprintf, SUBTITLE_SIZE]⟩))
    · exact Or.inl ⟨by simp [Function.update_noteq hj], by simp [Function.update_noteq hj]⟩
  · subst h1
    refine ⟨fun j => ?_, rfl⟩
    by_cases hj : j = i
    · subst hj
      exact Or.inr (Or.inr (Or.inr (Or.inl ⟨by simp, by simp [snprintf, SUBTITLE_SIZE]⟩)))
    · exact Or.inl ⟨by simp [Function.update_noteq hj], by simp [Function.update_noteq hj]⟩
  · obtain ⟨v, c, he⟩ := h1
    subst he
    refine ⟨fun j => ?_, rfl⟩
    by_cases hj : j = i
    · subst hj
      exact Or.inr (Or.inr (Or.inr (Or.inr (Or.inl
        ⟨by simp, v, c, by simp [snprintf, SUBTITLE_SIZE]⟩))))
    · exact Or.inl ⟨by simp [Function.update_noteq hj], by simp [Function.update_noteq hj]⟩
  · obtain ⟨st, he⟩ := h1
    subst he
    refine ⟨fun j => ?_, rfl⟩
    by_cases hj : j = i
    · subst hj
      exact Or.inr (Or.inr (Or.inr (Or.inr (Or.inr
        ⟨rfl, st, by simp [snprintf, SUBTITLE_SIZE]⟩))))
    · exact Or.inl ⟨rfl, by simp [Function.update_noteq hj]⟩

/-- A call of `send_request_for` that returns had a valid subscript. -/
theorem send_request_for_index (tr : Transport) (period : Int) (s : State)
    (r : State × List Int) (h : send_request_for tr period s = some r) :
    ∃ i, index period = some i ∧ r.1 =
      { s with
        s_row_state := Function.update s.s_row_state i RowState.ROW_LOADING
        s_row_subtitle :=
          Function.update s.s_row_subtitle i (snprintf SUBTITLE_SIZE "Loading...".toList) } := by
  cases hi : index period with
  | none => simp [send_request_for, hi] at h
  | some i =>
    obtain ⟨out, ho⟩ := send_request_for_state tr period s i hi
    rw [ho] at h
    have e := Option.some.inj h
    subst e
    exact ⟨i, rfl, rfl⟩

/-- A call of `send_request_for` changes each row by one of the ways of
`row_step`. -/
theorem send_request_for_row (tr : Transport) (period : Int) (s : State)
    (r : State × List Int) (h : send_request_for tr period s = some r) :
    ∀ j, row_step (s.s_row_state j) (s.s_row_subtitle j)
      (r.1.s_row_state j) (r.1.s_row_subtitle j) := by
  obtain ⟨i, _, hr⟩ := send_request_for_index tr period s r h
  rw [hr]
  intro j
  by_cases hj : j = i
  · subst hj
    exact Or.inr (Or.inl ⟨by simp, by simp [snprintf, SUBTITLE_SIZE]⟩)
  · exact Or.inl ⟨by simp [Function.update_noteq hj], by simp [Function.update_noteq hj]⟩

/-- Every event changes each row by one of the ways of `row_step`. -/
theorem handle_event_row (K : MessageKeys) (ev : Event) (s : State)
    (r : State × List Int) (h : handle_event K ev s = some r) :
    ∀ j, row_step (s.s_row_state j) (s.s_row_subtitle j)
      (r.1.s_row_state j) (r.1.s_row_subtitle j) := by
  cases ev with
  | inbox_received iter now =>
    simp only [handle_event, Option.map_eq_some'] at h
    obtain ⟨s', hs', hr⟩ := h
    subst hr
    exact (callback_row K now iter s s' hs').1
  | inbox_dropped reason =>
    simp only [handle_event, inbox_dropped_callback, Option.some.injEq] at h
    subst h
    exact fun j => Or.inl ⟨rfl, rfl⟩
  | outbox_failed iter reason =>
    simp only [handle_event, outbox_failed_callback, Option.some.injEq] at h
    subst h
    exact fun j => Or.inl ⟨rfl, rfl⟩
  | outbox_sent iter =>
    simp only [handle_event, outbox_sent_callback, Option.some.injEq] at h
    subst h
    exact fun j => Or.inl ⟨rfl, rfl⟩
  | menu_select row tr =>
    simp only [handle_event, menu_select_callback] at h
    exact send_request_for_row tr (row : Int) { s with s_selected := (row : Int) } r h
  | issue_request period tr =>
    simp only [handle_event] at h
    exact send_request_for_row tr period s r h

/-- A property kept by every event holds after every sequence of events. -/
theorem run_invariant (K : MessageKeys) (P : State → Prop)
    (hstep : ∀ ev s r, handle_event K ev s = some r → P s → P r.1)
    (evs : List Event) : ∀ s s', run K evs s = some s' → P s → P s' := by
  induction evs with
  | nil =>
    intro s s' h hp
    simp only [run, Option.some.injEq] at h
    subst h
    exact hp
  | cons ev evs ih =>
    intro s s' h hp
    simp only [run] at h
    cases hr : handle_event K ev s with
    | none => rw [hr] at h; exact absurd h (by simp)
    | some r =>
      rw [hr] at h
      exact ih r.1 s' h (hstep ev s r hr hp)

/-- An event that is not a received message of the `ROW_OK` kind leaves
`s_last_updated` alone. -/
theorem handle_event_keeps_time (K : MessageKeys) (ev : Event) (s : State)
    (r : State × List Int) (hnot : Event.is_ok K ev = false)
    (h : handle_event K ev s = some r) :
    r.1.s_last_updated = s.s_last_updated := by
  cases ev with
  | inbox_received iter now =>
    simp only [handle_event, Option.map_eq_some'] at h
    obtain ⟨s', hs', hr⟩ := h
    subst hr
    exact callback_keeps_time K now iter s s' hnot hs'
  | inbox_dropped reason =>
    simp only [handle_event, inbox_dropped_callback, Option.some.injEq] at h
    subst h
    rfl
  | outbox_failed iter reason =>
    simp only [handle_event, outbox_failed_callback, Option.some.injEq] at h
    subst h
    rfl
  | outbox_sent iter =>
    simp only [handle_event, outbox_sent_callback, Option.some.injEq] at h
    subst h
    rfl
  | menu_select row tr =>
    simp only [handle_event, menu_select_callback] at h
    exact (send_request_for_keeps tr _ _ r h).1
  | issue_request period tr =>
    simp only [handle_event] at h
    exact (send_request_for_keeps tr period s r h).1

/-- After an event `s_last_updated` is what it was, or the event is a received
message of the `ROW_OK` kind and it is the clock reading of that message. -/
theorem handle_event_time (K : MessageKeys) (ev : Event) (s : State)
    (r : State × List Int) (h : handle_event K ev s = some r) :
    r.1.s_last_updated = s.s_last_updated ∨
    ∃ iter now, ev = Event.inbox_received iter now ∧ classified_ok K iter = true ∧
      r.1.s_last_updated = now := by
  by_cases hok : Event.is_ok K ev = true
  · cases ev with
    | inbox_received iter now =>
      simp only [handle_event, Option.map_eq_some'] at h
      obtain ⟨s', hs', hr⟩ := h
      subst hr
      rcases callback_cases K now iter s s' hs' with h0 | ⟨i, _, h1 | h1 | h1 | h1⟩
      · exact Or.inl (by rw [h0])
      · obtain ⟨e, he⟩ := h1
        exact Or.inl (by rw [he])
      · exact Or.inl (by rw [h1])
      · obtain ⟨v, c, he⟩ := h1
        exact Or.inr ⟨iter, now, rfl, hok, by rw [he]⟩
      · obtain ⟨st, he⟩ := h1
        exact Or.inl (by rw [he])
    | inbox_dropped reason => exact absurd hok (by simp [Event.is_ok])
    | outbox_failed iter reason => exact absurd hok (by simp [Event.is_ok])
    | outbox_sent iter => exact absurd hok (by simp [Event.is_ok])
    | menu_select row tr => exact absurd hok (by simp [Event.is_ok])
    | issue_request period tr => exact absurd hok (by simp [Event.is_ok])
  · exact Or.inl (handle_event_keeps_time K ev s r (by simpa using hok) h)

/-- The result of `send_request_for` in full: the state of `send_request_for_state`
and the request, handed over exactly when the transport accepts it. -/
theorem send_request_for_eq (tr : Transport) (period : Int) (s : State)
    (i : Fin PERIOD_COUNT) (hi : index period = some i) :
    send_request_for tr period s = some
      ({ s with
         s_row_state := Function.update s.s_row_state i RowState.ROW_LOADING
         s_row_subtitle :=
           Function.update s.s_row_subtitle i (snprintf SUBTITLE_SIZE "Loading...".toList) },
       if tr.accepts = true then [period] else []) := by
  unfold send_request_for
  simp only [hi, menu_update_row, Transport.accepts]
  by_cases hb : tr.begin_res = APP_MSG_OK
  · by_cases hit : tr.iter_ok = true
    · by_cases hs : tr.send_res = APP_MSG_OK
      · simp [hb, hit, hs]
      · simp [hb, hit, hs]
    · simp [hb, hit]
  · simp [hb]

/-- The four branches of `inbox_received_callback` seen at the target cell. -/
theorem callback_at_target (K : MessageKeys) (now : Int) (iter : DictionaryIterator)
    (s s' : State) (i : Fin PERIOD_COUNT)
    (hi : index (received_period K iter s) = some i)
    (h : inbox_received_callback K now iter s = some s') :
    (∀ e, cstring_of (dict_find iter K.MESSAGE_KEY_error) = some e →
      s'.s_row_state i = RowState.ROW_ERROR ∧
      s'.s_row_subtitle i = List.take 31 ("Error: ".toList ++ e)) ∧
    (cstring_of (dict_find iter K.MESSAGE_KEY_error) = none →
      cstring_of (dict_find iter K.MESSAGE_KEY_status) = some "error".toList →
      s'.s_row_state i = RowState.ROW_ERROR ∧ s'.s_row_subtitle i = "Error".toList) ∧
    (∀ v c, cstring_of (dict_find iter K.MESSAGE_KEY_error) = none →
      cstring_of (dict_find iter K.MESSAGE_KEY_status) ≠ some "error".toList →
      cstring_of (dict_find iter K.MESSAGE_KEY_total) = some v →
      cstring_of (dict_find iter K.MESSAGE_KEY_currency) = some c →
      s'.s_row_state i = RowState.ROW_OK ∧
      s'.s_row_subtitle i = List.take 31 (v ++ " ".toList ++ c)) ∧
    (∀ st, cstring_of (dict_find iter K.MESSAGE_KEY_error) = none →
      cstring_of (dict_find iter K.MESSAGE_KEY_status) = some st →
      st ≠ "error".toList →
      ¬ ((cstring_of (dict_find iter K.MESSAGE_KEY_total)).isSome = true ∧
         (cstring_of (dict_find iter K.MESSAGE_KEY_currency)).isSome = true) →
      s'.s_row_state i = s.s_row_state i ∧
      s'.s_row_subtitle i = List.take 31 ("Status: ".toList ++ st)) := by
  refine ⟨?_, ?_, ?_, ?_⟩
  · intro e he
    rw [callback_error K now iter s i e hi he] at h
    have e := Option.some.inj h
    subst e
    exact ⟨by simp, by simp [snprintf, SUBTITLE_SIZE]⟩
  · intro he hs
    rw [callback_status_error K now iter s i hi he hs] at h
    have e := Option.some.inj h
    subst e
    exact ⟨by simp, by simp [snprintf, SUBTITLE_SIZE]⟩
  · intro v c he hs hv hc
    rw [callback_ok K now iter s i v c hi he hs hv hc] at h
    have e := Option.some.inj h
    subst e
    exact ⟨by simp, by simp [snprintf, SUBTITLE_SIZE]⟩
  · intro st he hs hne hvc
    rw [callback_status K now iter s i st hi he hs hne hvc] at h
    have e := Option.some.inj h
    subst e
    exact ⟨rfl, by simp [snprintf, SUBTITLE_SIZE]⟩

/-- The rows of the loaded state. -/
theorem loaded_rows (i : Fin PERIOD_COUNT) :
    loaded.s_row_state i = RowState.ROW_IDLE ∧ loaded.s_row_subtitle i = "--".toList := by
  fin_cases i <;> exact ⟨rfl, rfl⟩

/-- The loaded state has the selection and the time of the static initialisers. -/
theorem loaded_statics : loaded.s_selected = 0 ∧ loaded.s_last_updated = 0 :=
  ⟨rfl, rfl⟩

/-- No way of `row_step` stores more than 31 bytes. -/
theorem row_step_length (st st' : RowState) (text text' : CString)
    (h : row_step st text st' text') (hl : text.length ≤ 31) : text'.length ≤ 31 := by
  rcases h with ⟨_, h⟩ | ⟨_, h⟩ | ⟨_, e, h⟩ | ⟨_, h⟩ | ⟨_, v, c, h⟩ | ⟨_, t, h⟩
  · rw [h]; exact hl
  · rw [h]; decide
  · rw [h]; exact List.length_take_le 31 _
  · rw [h]; decide
  · rw [h]; exact List.length_take_le 31 _
  · rw [h]; exact List.length_take_le 31 _

/-- Every way of `row_step` keeps `text_consistent`. -/
theorem row_step_consistent (st st' : RowState) (text text' : CString)
    (h : row_step st text st' text') (hc : text_consistent st text) :
    text_consistent st' text' := by
  rcases h with ⟨h1, h2⟩ | ⟨h1, h2⟩ | ⟨h1, e, h2⟩ | ⟨h1, h2⟩ | ⟨h1, v, c, h2⟩ | ⟨h1, t, h2⟩
  · rw [h1, h2]; exact hc
  · rw [h1, h2]; exact Or.inr rfl
  · rw [h1, h2]
    refine Or.inr (Or.inr ⟨List.take 24 e, ?_⟩)
    rw [List.take_append_eq_append_take]
    rfl
  · rw [h1, h2]; exact Or.inr (Or.inl rfl)
  · rw [h1, h2]; exact Or.inr ⟨v, c, rfl⟩
  · rw [h2]
    refine Or.inl ⟨List.take 23 t, ?_⟩
    rw [List.take_append_eq_append_take]
    rfl

/-- No way of `row_step` stores `ROW_IDLE` over another state. -/
theorem row_step_state (st st' : RowState) (text text' : CString)
    (h : row_step st text st' text') :
    st' = st ∨ st' = RowState.ROW_LOADING ∨ st' = RowState.ROW_OK ∨ st' = RowState.ROW_ERROR := by
  rcases h with ⟨h, _⟩ | ⟨h, _⟩ | ⟨h, _⟩ | ⟨h, _⟩ | ⟨h, _⟩ | ⟨h, _⟩
  · exact Or.inl h
  · exact Or.inr (Or.inl h)
  · exact Or.inr (Or.inr (Or.inr h))
  · exact Or.inr (Or.inr (Or.inr h))
  · exact Or.inr (Or.inr (Or.inl h))
  · exact Or.inl h

/-- A received message leaves each item in the state it had or in `ROW_OK` or
`ROW_ERROR`. -/
theorem callback_state (K : MessageKeys) (now : Int) (iter : DictionaryIterator)
    (s s' : State) (h : inbox_received_callback K now iter s = some s')
    (j : Fin PERIOD_COUNT) :
    s'.s_row_state j = s.s_row_state j ∨ s'.s_row_state j = RowState.ROW_OK ∨
      s'.s_row_state j = RowState.ROW_ERROR := by
  rcases callback_cases K now iter s s' h with h0 | ⟨i, _, h1 | h1 | h1 | h1⟩
  · exact Or.inl (by rw [h0])
  · obtain ⟨e, he⟩ := h1
    subst he
    by_cases hj : j = i
    · subst hj; exact Or.inr (Or.inr (by simp))
    · exact Or.inl (by simp [Function.update_noteq hj])
  · subst h1
    by_cases hj : j = i
    · subst hj; exact Or.inr (Or.inr (by simp))
    · exact Or.inl (by simp [Function.update_noteq hj])
  · obtain ⟨v, c, he⟩ := h1
    subst he
    by_cases hj : j = i
    · subst hj; exact Or.inr (Or.inl (by simp))
    · exact Or.inl (by simp [Function.update_noteq hj])
  · obtain ⟨st, he⟩ := h1
    subst he
    exact Or.inl rfl

/-- After an event the selection is what it was, or the event is a select click
and the selection is the row clicked. -/
theorem handle_event_selected (K : MessageKeys) (ev : Event) (s : State)
    (r : State × List Int) (h : handle_event K ev s = some r) :
    r.1.s_selected = s.s_selected ∨
    ∃ row tr, ev = Event.menu_select row tr ∧ r.1.s_selected = (row : Int) := by
  cases ev with
  | inbox_received iter now =>
    simp only [handle_event, Option.map_eq_some'] at h
    obtain ⟨s', hs', hr⟩ := h
    subst hr
    exact Or.inl (callback_row K now iter s s' hs').2
  | inbox_dropped reason =>
    simp only [handle_event, inbox_dropped_callback, Option.some.injEq] at h
    subst h
    exact Or.inl rfl
  | outbox_failed iter reason =>
    simp only [handle_event, outbox_failed_callback, Option.some.injEq] at h
    subst h
    exact Or.inl rfl
  | outbox_sent iter =>
    simp only [handle_event, outbox_sent_callback, Option.some.injEq] at h
    subst h
    exact Or.inl rfl
  | menu_select row tr =>
    simp only [handle_event, menu_select_callback] at h
    exact Or.inr ⟨row, tr, rfl,
      (send_request_for_keeps tr (row : Int) { s with s_selected := (row : Int) } r h).2⟩
  | issue_request period tr =>
    simp only [handle_event] at h
    exact Or.inl (send_request_for_keeps tr period s r h).2

/-- An event whose subscript is in range is served without out-of-bounds access
in a state whose selection is a valid item, and leaves such a state. -/
theorem handle_event_defined (K : MessageKeys) (ev : Event) (s : State)
    (hsel : 0 ≤ s.s_selected ∧ s.s_selected < PERIOD_COUNT)
    (hin : Event.in_range ev = true) :
    ∃ r, handle_event K ev s = some r ∧
      0 ≤ r.1.s_selected ∧ r.1.s_selected < PERIOD_COUNT := by
  cases ev with
  | inbox_received iter now =>
    obtain ⟨i, hi⟩ := target_valid K iter s (fun _ => hsel)
    obtain ⟨s', hs', _, hsl⟩ := callback_frame K now iter s i hi
    refine ⟨(s', []), by simp [handle_event, hs'], ?_⟩
    simp only [hsl]
    exact hsel
  | inbox_dropped reason => exact ⟨(s, []), rfl, hsel⟩
  | outbox_failed iter reason => exact ⟨(s, []), rfl, hsel⟩
  | outbox_sent iter => exact ⟨(s, []), rfl, hsel⟩
  | menu_select row tr =>
    simp only [Event.in_range, decide_eq_true_eq] at hin
    have hrow : row < 3 := hin
    obtain ⟨i, hi, _⟩ := index_eq_some (row : Int) (by omega) (by omega)
    refine ⟨_, send_request_for_eq tr (row : Int) { s with s_selected := (row : Int) } i hi, ?_⟩
    show (0 : Int) ≤ (row : Int) ∧ (row : Int) < (3 : Nat)
    omega
  | issue_request period tr =>
    simp only [Event.in_range, decide_eq_true_eq] at hin
    obtain ⟨i, hi, _⟩ := index_eq_some period hin.1 (by simpa using hin.2)
    exact ⟨_, send_request_for_eq tr period s i hi, hsel⟩

/-- A sequence of events with subscripts in range is served to its end from a
state whose selection is a valid item, and ends in such a state. -/
theorem run_defined (K : MessageKeys) (evs : List Event) :
    ∀ s : State, 0 ≤ s.s_selected ∧ s.s_selected < PERIOD_COUNT →
      (∀ ev ∈ evs, Event.in_range ev = true) →
      ∃ s', run K evs s = some s' ∧ 0 ≤ s'.s_selected ∧ s'.s_selected < PERIOD_COUNT := by
  induction evs with
  | nil =>
    intro s hsel _
    exact ⟨s, rfl, hsel⟩
  | cons ev evs ih =>
    intro s hsel hin
    obtain ⟨r, hr, hsel'⟩ := handle_event_defined K ev s hsel (hin ev (by simp))
    obtain ⟨s', hs', hfin⟩ := ih r.1 hsel' (fun e he => hin e (by simp [he]))
    exact ⟨s', by simp only [run, hr]; exact hs', hfin⟩

/-- The result of `prv_init` in full: the three writes on top of the loaded
rows, and the requests of the accepted calls in the order 0, 1, 2. -/
theorem prv_init_eq (tr : Nat → Transport) (s : State) :
    prv_init tr s = some
      ({ prv_window_load s with
         s_row_state :=
           Function.update (Function.update (Function.update
             (prv_window_load s).s_row_state 0 RowState.ROW_LOADING)
             1 RowState.ROW_LOADING) 2 RowState.ROW_LOADING
         s_row_subtitle :=
           Function.update (Function.update (Function.update
             (prv_window_load s).s_row_subtitle 0 (snprintf SUBTITLE_SIZE "Loading...".toList))
             1 (snprintf SUBTITLE_SIZE "Loading...".toList))
             2 (snprintf SUBTITLE_SIZE "Loading...".toList) },
       (if (tr 0).accepts = true then [0] else []) ++
         ((if (tr 1).accepts = true then [1] else []) ++
           (if (tr 2).accepts = true then [2] else []))) := by
  have e0 := fun t => send_request_for_eq (tr 0) ((0 : Nat) : Int) t 0 (by decide)
  have e1 := fun t => send_request_for_eq (tr 1) ((1 : Nat) : Int) t 1 (by decide)
  have e2 := fun t => send_request_for_eq (tr 2) ((2 : Nat) : Int) t 2 (by decide)
  show prv_init_loop tr [0, 1, 2] (prv_window_load s) = _
  simp only [prv_init_loop, e0, e1, e2, List.append_nil]
  rfl

/-! ## The claims -/

/-- C1, as the code has it.  For every integer `k` (so for every 32-bit signed
one) in the period tuple of an inbound message, the target is `k mod 3` when
`k` is non-negative, which is then the residue `((k mod 3) + 3) mod 3`, and is
item 0 when `k` is negative; the callback returns, and every item other than
that target keeps its state and its text. -/
theorem C1_target_is_clamped_remainder (K : MessageKeys) (now : Int)
    (iter : DictionaryIterator) (s : State) (period_t : Tuple) (k : Int)
    (h : dict_find iter K.MESSAGE_KEY_period = some period_t)
    (hk : period_t.value.int32 = k) :
    received_period K iter s = (if 0 ≤ k then k % 3 else 0) ∧
    (0 ≤ k → received_period K iter s = ((k % 3) + 3) % 3) ∧
    (k < 0 → received_period K iter s = 0) ∧
    ∃ i s', index (received_period K iter s) = some i ∧
      inbox_received_callback K now iter s = some s' ∧
      ∀ j, j ≠ i → s'.s_row_state j = s.s_row_state j ∧
        s'.s_row_subtitle j = s.s_row_subtitle j := by
  have e := received_period_some K iter s period_t h
  rw [hk] at e
  refine ⟨e, ?_, ?_, ?_⟩
  · intro h0
    rw [e, if_pos h0]
    omega
  · intro h0
    rw [e, if_neg (by omega)]
  · obtain ⟨i, hi⟩ := target_valid K iter s (fun hn => by rw [h] at hn; exact absurd hn (by simp))
    obtain ⟨s', hs', hfr, _⟩ := callback_frame K now iter s i hi
    exact ⟨i, s', hi, hs', hfr⟩

/-- C1 at a sample message: period 4 targets item 1. -/
theorem C1_target_is_clamped_remainder_witness :
    (dict_find [int_tuple sample_keys.MESSAGE_KEY_period 4] sample_keys.MESSAGE_KEY_period
        = some (int_tuple sample_keys.MESSAGE_KEY_period 4) ∧
      (int_tuple sample_keys.MESSAGE_KEY_period 4).value.int32 = 4) ∧
    (received_period sample_keys [int_tuple sample_keys.MESSAGE_KEY_period 4] loaded
        = (if (0 : Int) ≤ 4 then 4 % 3 else 0) ∧
      ((0 : Int) ≤ 4 →
        received_period sample_keys [int_tuple sample_keys.MESSAGE_KEY_period 4] loaded
          = ((4 % 3) + 3) % 3) ∧
      ((4 : Int) < 0 →
        received_period sample_keys [int_tuple sample_keys.MESSAGE_KEY_period 4] loaded = 0) ∧
      ∃ i s',
        index (received_period sample_keys [int_tuple sample_keys.MESSAGE_KEY_period 4] loaded)
          = some i ∧
        inbox_received_callback sample_keys 0 [int_tuple sample_keys.MESSAGE_KEY_period 4] loaded
          = some s' ∧
        ∀ j, j ≠ i → s'.s_row_state j = loaded.s_row_state j ∧
          s'.s_row_subtitle j = loaded.s_row_subtitle j) :=
  ⟨⟨by decide, by decide⟩,
   C1_target_is_clamped_remainder sample_keys 0 [int_tuple sample_keys.MESSAGE_KEY_period 4]
     loaded (int_tuple sample_keys.MESSAGE_KEY_period 4) 4 (by decide) (by decide)⟩

/-- C1 fails as stated.  A message whose period tuple holds -1 and which carries
an error text does not target item 2, the residue `((-1 mod 3) + 3) mod 3`: the
target is item 0, item 0 becomes `ROW_ERROR` and item 2 stays `ROW_IDLE`. -/
theorem C1_negative_period_targets_zero :
    (((-1 : Int) % 3) + 3) % 3 = 2 ∧
    received_period sample_keys msg_negative_period loaded = 0 ∧
    (inbox_received_callback sample_keys 0 msg_negative_period loaded).map
        (fun s' => (s'.s_row_state 0, s'.s_row_state 2))
      = some (RowState.ROW_ERROR, RowState.ROW_IDLE) := by
  decide

/-- C2.  For every integer `k` (so for every 32-bit signed one) in the period
tuple of an inbound message, the normalised target lies in `[0, 3)`, hence it is
a cell of `s_row_state` and `s_row_subtitle` and the callback returns a state;
and for `k` among 0, 1, 2 the target is `k` itself. -/
theorem C2_target_in_range (K : MessageKeys) (now : Int) (iter : DictionaryIterator)
    (s : State) (period_t : Tuple) (k : Int)
    (h : dict_find iter K.MESSAGE_KEY_period = some period_t)
    (hk : period_t.value.int32 = k) :
    0 ≤ received_period K iter s ∧ received_period K iter s < PERIOD_COUNT ∧
    (index (received_period K iter s)).isSome = true ∧
    (inbox_received_callback K now iter s).isSome = true ∧
    (k = 0 ∨ k = 1 ∨ k = 2 → received_period K iter s = k) := by
  obtain ⟨h0, h1⟩ := received_period_bounds K iter s period_t h
  obtain ⟨i, hi, _⟩ := index_eq_some _ h0 h1
  obtain ⟨s', hs', _⟩ := callback_frame K now iter s i hi
  refine ⟨h0, by simpa using h1, by simp [hi], by simp [hs'], ?_⟩
  intro hk3
  rw [received_period_some K iter s period_t h, hk]
  rcases hk3 with h | h | h <;> subst h <;> decide

/-- C2 at a sample message: period 2 in `msg_status_error`. -/
theorem C2_target_in_range_witness :
    (dict_find msg_status_error sample_keys.MESSAGE_KEY_period
        = some (int_tuple sample_keys.MESSAGE_KEY_period 2) ∧
      (int_tuple sample_keys.MESSAGE_KEY_period 2).value.int32 = 2) ∧
    (0 ≤ received_period sample_keys msg_status_error loaded ∧
      received_period sample_keys msg_status_error loaded < PERIOD_COUNT ∧
      (index (received_period sample_keys msg_status_error loaded)).isSome = true ∧
      (inbox_received_callback sample_keys 0 msg_status_error loaded).isSome = true ∧
      ((2 : Int) = 0 ∨ (2 : Int) = 1 ∨ (2 : Int) = 2 →
        received_period sample_keys msg_status_error loaded = 2)) :=
  ⟨⟨by decide, by decide⟩,
   C2_target_in_range sample_keys 0 msg_status_error loaded
     (int_tuple sample_keys.MESSAGE_KEY_period 2) 2 (by decide) (by decide)⟩

/-- C3.  For every state and every inbound message with a string error tuple
`e`, whatever else the message carries: provided the selection is a valid item
when the message has no period tuple, the callback returns, the target item is
`ROW_ERROR` (so not `ROW_OK`, also when a value and a currency are present), its
text is the first 31 bytes of `"Error: "` followed by `e`, and `s_last_updated`
is unchanged. -/
theorem C3_error_field_gives_error (K : MessageKeys) (now : Int) (iter : DictionaryIterator)
    (s : State) (e : CString)
    (hsel : dict_find iter K.MESSAGE_KEY_period = none →
      0 ≤ s.s_selected ∧ s.s_selected < PERIOD_COUNT)
    (he : cstring_of (dict_find iter K.MESSAGE_KEY_error) = some e) :
    ∃ i s', index (received_period K iter s) = some i ∧
      inbox_received_callback K now iter s = some s' ∧
      s'.s_row_state i = RowState.ROW_ERROR ∧
      s'.s_row_state i ≠ RowState.ROW_OK ∧
      s'.s_row_subtitle i = List.take 31 ("Error: ".toList ++ e) ∧
      s'.s_last_updated = s.s_last_updated := by
  obtain ⟨i, hi⟩ := target_valid K iter s hsel
  refine ⟨i, _, hi, callback_error K now iter s i e hi he, ?_, ?_, ?_, rfl⟩
  · simp
  · simp
  · simp [snprintf, SUBTITLE_SIZE]

/-- C3 at `msg_error_and_value`, which also carries a value and a currency. -/
theorem C3_error_field_gives_error_witness :
    ((dict_find msg_error_and_value sample_keys.MESSAGE_KEY_period = none →
        0 ≤ loaded.s_selected ∧ loaded.s_selected < PERIOD_COUNT) ∧
      cstring_of (dict_find msg_error_and_value sample_keys.MESSAGE_KEY_error)
        = some "timeout".toList ∧
      cstring_of (dict_find msg_error_and_value sample_keys.MESSAGE_KEY_total)
        = some "42.50".toList ∧
      cstring_of (dict_find msg_error_and_value sample_keys.MESSAGE_KEY_currency)
        = some "USD".toList) ∧
    ∃ i s', index (received_period sample_keys msg_error_and_value loaded) = some i ∧
      inbox_received_callback sample_keys 1700000000 msg_error_and_value loaded = some s' ∧
      s'.s_row_state i = RowState.ROW_ERROR ∧
      s'.s_row_state i ≠ RowState.ROW_OK ∧
      s'.s_row_subtitle i = List.take 31 ("Error: ".toList ++ "timeout".toList) ∧
      s'.s_last_updated = loaded.s_last_updated :=
  ⟨⟨by decide, by decide, by decide, by decide⟩,
   C3_error_field_gives_error sample_keys 1700000000 msg_error_and_value loaded
     "timeout".toList (by decide) (by decide)⟩

/-- C4.  For every state and every inbound message with no string error tuple,
a string total `v`, a string currency `c`, and a status that is absent or is
not the string `"error"`: provided the selection is a valid item when the message
has no period tuple, the callback returns, the target item is `ROW_OK`, its text
is the first 31 bytes of `v`, a space and `c`, and `s_last_updated` is the clock
reading `now`. -/
theorem C4_value_and_currency_give_ok (K : MessageKeys) (now : Int)
    (iter : DictionaryIterator) (s : State) (v c : CString)
    (hsel : dict_find iter K.MESSAGE_KEY_period = none →
      0 ≤ s.s_selected ∧ s.s_selected < PERIOD_COUNT)
    (he : cstring_of (dict_find iter K.MESSAGE_KEY_error) = none)
    (hs : cstring_of (dict_find iter K.MESSAGE_KEY_status) ≠ some "error".toList)
    (hv : cstring_of (dict_find iter K.MESSAGE_KEY_total) = some v)
    (hc : cstring_of (dict_find iter K.MESSAGE_KEY_currency) = some c) :
    ∃ i s', index (received_period K iter s) = some i ∧
      inbox_received_callback K now iter s = some s' ∧
      s'.s_row_state i = RowState.ROW_OK ∧
      s'.s_row_subtitle i = List.take 31 (v ++ " ".toList ++ c) ∧
      s'.s_last_updated = now := by
  obtain ⟨i, hi⟩ := target_valid K iter s hsel
  refine ⟨i, _, hi, callback_ok K now iter s i v c hi he hs hv hc, ?_, ?_, rfl⟩
  · simp
  · simp [snprintf, SUBTITLE_SIZE]

/-- C4 at `msg_value`, a message without period tuple, so that the target is
the selection. -/
theorem C4_value_and_currency_give_ok_witness :
    ((dict_find msg_value sample_keys.MESSAGE_KEY_period = none →
        0 ≤ loaded.s_selected ∧ loaded.s_selected < PERIOD_COUNT) ∧
      cstring_of (dict_find msg_value sample_keys.MESSAGE_KEY_error) = none ∧
      cstring_of (dict_find msg_value sample_keys.MESSAGE_KEY_status) ≠ some "error".toList ∧
      cstring_of (dict_find msg_value sample_keys.MESSAGE_KEY_total) = some "42.50".toList ∧
      cstring_of (dict_find msg_value sample_keys.MESSAGE_KEY_currency) = some "USD".toList) ∧
    ∃ i s', index (received_period sample_keys msg_value loaded) = some i ∧
      inbox_received_callback sample_keys 1700000000 msg_value loaded = some s' ∧
      s'.s_row_state i = RowState.ROW_OK ∧
      s'.s_row_subtitle i = List.take 31 ("42.50".toList ++ " ".toList ++ "USD".toList) ∧
      s'.s_last_updated = 1700000000 :=
  ⟨⟨by decide, by decide, by decide, by decide, by decide⟩,
   C4_value_and_currency_give_ok sample_keys 1700000000 msg_value loaded
     "42.50".toList "USD".toList (by decide) (by decide) (by decide) (by decide) (by decide)⟩

/-- C5.  For every state and every inbound message with no string error tuple
whose status is the string `"error"`, whatever value and currency it carries:
provided the selection is a valid item when the message has no period tuple,
the callback returns, the target item is `ROW_ERROR`, its text is exactly
`"Error"`, and `s_last_updated` is unchanged. -/
theorem C5_status_error_gives_error (K : MessageKeys) (now : Int)
    (iter : DictionaryIterator) (s : State)
    (hsel : dict_find iter K.MESSAGE_KEY_period = none →
      0 ≤ s.s_selected ∧ s.s_selected < PERIOD_COUNT)
    (he : cstring_of (dict_find iter K.MESSAGE_KEY_error) = none)
    (hs : cstring_of (dict_find iter K.MESSAGE_KEY_status) = some "error".toList) :
    ∃ i s', index (received_period K iter s) = some i ∧
      inbox_received_callback K now iter s = some s' ∧
      s'.s_row_state i = RowState.ROW_ERROR ∧
      s'.s_row_subtitle i = "Error".toList ∧
      s'.s_last_updated = s.s_last_updated := by
  obtain ⟨i, hi⟩ := target_valid K iter s hsel
  refine ⟨i, _, hi, callback_status_error K now iter s i hi he hs, ?_, ?_, rfl⟩
  · simp
  · simp [snprintf, SUBTITLE_SIZE]

/-- C5 at `msg_status_error`, which also carries a value and a currency. -/
theorem C5_status_error_gives_error_witness :
    ((dict_find msg_status_error sample_keys.MESSAGE_KEY_period = none →
        0 ≤ loaded.s_selected ∧ loaded.s_selected < PERIOD_COUNT) ∧
      cstring_of (dict_find msg_status_error sample_keys.MESSAGE_KEY_error) = none ∧
      cstring_of (dict_find msg_status_error sample_keys.MESSAGE_KEY_status)
        = some "error".toList ∧
      cstring_of (dict_find msg_status_error sample_keys.MESSAGE_KEY_total)
        = some "42.50".toList ∧
      cstring_of (dict_find msg_status_error sample_keys.MESSAGE_KEY_currency)
        = some "USD".toList) ∧
    ∃ i s', index (received_period sample_keys msg_status_error loaded) = some i ∧
      inbox_received_callback sample_keys 1700000000 msg_status_error loaded = some s' ∧
      s'.s_row_state i = RowState.ROW_ERROR ∧
      s'.s_row_subtitle i = "Error".toList ∧
      s'.s_last_updated = loaded.s_last_updated :=
  ⟨⟨by decide, by decide, by decide, by decide, by decide⟩,
   C5_status_error_gives_error sample_keys 1700000000 msg_status_error loaded
     (by decide) (by decide) (by decide)⟩

/-- C6.  For every state and every inbound message with a string status `st`
other than `"error"`, no string error tuple, and not both a string total and a
string currency: provided the selection is a valid item when the message has no
period tuple, the callback returns, the target item keeps the state it had, its
text is the first 31 bytes of `"Status: "` followed by `st`, and
`s_last_updated` is unchanged. -/
theorem C6_other_status_keeps_state (K : MessageKeys) (now : Int)
    (iter : DictionaryIterator) (s : State) (st : CString)
    (hsel : dict_find iter K.MESSAGE_KEY_period = none →
      0 ≤ s.s_selected ∧ s.s_selected < PERIOD_COUNT)
    (he : cstring_of (dict_find iter K.MESSAGE_KEY_error) = none)
    (hs : cstring_of (dict_find iter K.MESSAGE_KEY_status) = some st)
    (hne : st ≠ "error".toList)
    (hvc : ¬ ((cstring_of (dict_find iter K.MESSAGE_KEY_total)).isSome = true ∧
              (cstring_of (dict_find iter K.MESSAGE_KEY_currency)).isSome = true)) :
    ∃ i s', index (received_period K iter s) = some i ∧
      inbox_received_callback K now iter s = some s' ∧
      s'.s_row_state i = s.s_row_state i ∧
      s'.s_row_subtitle i = List.take 31 ("Status: ".toList ++ st) ∧
      s'.s_last_updated = s.s_last_updated := by
  obtain ⟨i, hi⟩ := target_valid K iter s hsel
  refine ⟨i, _, hi, callback_status K now iter s i st hi he hs hne hvc, rfl, ?_, rfl⟩
  simp [snprintf, SUBTITLE_SIZE]

/-- C6 at `msg_status`: status `"fetching"`, a value, no currency, period 5. -/
theorem C6_other_status_keeps_state_witness :
    ((dict_find msg_status sample_keys.MESSAGE_KEY_period = none →
        0 ≤ loaded.s_selected ∧ loaded.s_selected < PERIOD_COUNT) ∧
      cstring_of (dict_find msg_status sample_keys.MESSAGE_KEY_error) = none ∧
      cstring_of (dict_find msg_status sample_keys.MESSAGE_KEY_status)
        = some "fetching".toList ∧
      "fetching".toList ≠ "error".toList ∧
      ¬ ((cstring_of (dict_find msg_status sample_keys.MESSAGE_KEY_total)).isSome = true ∧
         (cstring_of (dict_find msg_status sample_keys.MESSAGE_KEY_currency)).isSome = true)) ∧
    ∃ i s', index (received_period sample_keys msg_status loaded) = some i ∧
      inbox_received_callback sample_keys 1700000000 msg_status loaded = some s' ∧
      s'.s_row_state i = loaded.s_row_state i ∧
      s'.s_row_subtitle i = List.take 31 ("Status: ".toList ++ "fetching".toList) ∧
      s'.s_last_updated = loaded.s_last_updated :=
  ⟨⟨by decide, by decide, by decide, by decide, by decide⟩,
   C6_other_status_keeps_state sample_keys 1700000000 msg_status loaded "fetching".toList
     (by decide) (by decide) (by decide) (by decide) (by decide)⟩

/-- C7.  For every state and every inbound message with no string error tuple,
no string status tuple, and not both a string total and a string currency, the
callback returns the very state it was given: every item state, every text,
`s_selected` and `s_last_updated` are unchanged. -/
theorem C7_unrecognised_message_is_noop (K : MessageKeys) (now : Int)
    (iter : DictionaryIterator) (s : State)
    (he : cstring_of (dict_find iter K.MESSAGE_KEY_error) = none)
    (hs : cstring_of (dict_find iter K.MESSAGE_KEY_status) = none)
    (hvc : ¬ ((cstring_of (dict_find iter K.MESSAGE_KEY_total)).isSome = true ∧
              (cstring_of (dict_find iter K.MESSAGE_KEY_currency)).isSome = true)) :
    inbox_received_callback K now iter s = some s ∧
    handle_event K (Event.inbox_received iter now) s = some (s, []) := by
  have h := callback_none K now iter s he hs hvc
  refine ⟨h, ?_⟩
  simp [handle_event, h]

/-- C7 at `msg_value_only`: a period and a value, no currency. -/
theorem C7_unrecognised_message_is_noop_witness :
    (cstring_of (dict_find msg_value_only sample_keys.MESSAGE_KEY_error) = none ∧
      cstring_of (dict_find msg_value_only sample_keys.MESSAGE_KEY_status) = none ∧
      ¬ ((cstring_of (dict_find msg_value_only sample_keys.MESSAGE_KEY_total)).isSome = true ∧
         (cstring_of (dict_find msg_value_only sample_keys.MESSAGE_KEY_currency)).isSome
           = true)) ∧
    (inbox_received_callback sample_keys 1700000000 msg_value_only loaded = some loaded ∧
      handle_event sample_keys (Event.inbox_received msg_value_only 1700000000) loaded
        = some (loaded, [])) :=
  ⟨⟨by decide, by decide, by decide⟩,
   C7_unrecognised_message_is_noop sample_keys 1700000000 msg_value_only loaded
     (by decide) (by decide) (by decide)⟩

/-- C8.  For every state and every inbound message that carries a period tuple,
the period normalises to an item `A`, the callback returns, and every item `B`
other than `A` keeps its state and its text, whichever branch the message takes. -/
theorem C8_other_items_untouched (K : MessageKeys) (now : Int) (iter : DictionaryIterator)
    (s : State) (period_t : Tuple)
    (h : dict_find iter K.MESSAGE_KEY_period = some period_t) :
    ∃ A s', index (received_period K iter s) = some A ∧
      inbox_received_callback K now iter s = some s' ∧
      ∀ B, B ≠ A → s'.s_row_state B = s.s_row_state B ∧
        s'.s_row_subtitle B = s.s_row_subtitle B := by
  obtain ⟨A, hA⟩ := target_valid K iter s (fun hn => by rw [h] at hn; exact absurd hn (by simp))
  obtain ⟨s', hs', hfr, _⟩ := callback_frame K now iter s A hA
  exact ⟨A, s', hA, hs', hfr⟩

/-- C8 at `msg_error_and_value`, addressed to item 1. -/
theorem C8_other_items_untouched_witness :
    dict_find msg_error_and_value sample_keys.MESSAGE_KEY_period
        = some (int_tuple sample_keys.MESSAGE_KEY_period 1) ∧
    ∃ A s', index (received_period sample_keys msg_error_and_value loaded) = some A ∧
      inbox_received_callback sample_keys 1700000000 msg_error_and_value loaded = some s' ∧
      ∀ B, B ≠ A → s'.s_row_state B = loaded.s_row_state B ∧
        s'.s_row_subtitle B = loaded.s_row_subtitle B :=
  ⟨by decide,
   C8_other_items_untouched sample_keys 1700000000 msg_error_and_value loaded
     (int_tuple sample_keys.MESSAGE_KEY_period 1) (by decide)⟩

/-- C9.  For every state and every `period` in `[0, 3)`, `send_request_for`
returns, and one and the same state `s'` results for every report of the
transport, whether both outbox calls succeed or one of them fails: item `period`
is `ROW_LOADING` with text `"Loading..."` whatever it was before, every other
item keeps its state and text, and `s_selected` and `s_last_updated` are
unchanged. -/
theorem C9_issue_request_sets_loading (period : Int) (s : State)
    (h0 : 0 ≤ period) (h1 : period < PERIOD_COUNT) :
    ∃ i s', index period = some i ∧ (i : Int) = period ∧
      (∀ tr : Transport, ∃ out, send_request_for tr period s = some (s', out)) ∧
      s'.s_row_state i = RowState.ROW_LOADING ∧
      s'.s_row_subtitle i = "Loading...".toList ∧
      (∀ j, j ≠ i → s'.s_row_state j = s.s_row_state j ∧
        s'.s_row_subtitle j = s.s_row_subtitle j) ∧
      s'.s_selected = s.s_selected ∧
      s'.s_last_updated = s.s_last_updated := by
  obtain ⟨i, hi, hv⟩ := index_eq_some period h0 (by simpa using h1)
  refine ⟨i, _, hi, hv, fun tr => send_request_for_state tr period s i hi, ?_, ?_, ?_, rfl, rfl⟩
  · simp
  · simp [snprintf, SUBTITLE_SIZE]
  · intro j hj
    simp [Function.update_noteq hj]

/-- C9 at period 2 of the freshly loaded state. -/
theorem C9_issue_request_sets_loading_witness :
    ((0 : Int) ≤ 2 ∧ (2 : Int) < PERIOD_COUNT) ∧
    ∃ i s', index 2 = some i ∧ (i : Int) = 2 ∧
      (∀ tr : Transport, ∃ out, send_request_for tr 2 loaded = some (s', out)) ∧
      s'.s_row_state i = RowState.ROW_LOADING ∧
      s'.s_row_subtitle i = "Loading...".toList ∧
      (∀ j, j ≠ i → s'.s_row_state j = loaded.s_row_state j ∧
        s'.s_row_subtitle j = loaded.s_row_subtitle j) ∧
      s'.s_selected = loaded.s_selected ∧
      s'.s_last_updated = loaded.s_last_updated :=
  ⟨⟨by decide, by decide⟩, C9_issue_request_sets_loading 2 loaded (by decide) (by decide)⟩

/-- C10.  For every state and every event that is not a received message taking
the `ROW_OK` branch (a received message of any other kind, a dropped message, a
failed or an acknowledged send, a select click, a request issued directly), the
state after the event has the `s_last_updated` it had before. -/
theorem C10_time_kept_unless_ok (K : MessageKeys) (ev : Event) (s : State)
    (r : State × List Int) (hnot : Event.is_ok K ev = false)
    (h : handle_event K ev s = some r) :
    r.1.s_last_updated = s.s_last_updated := by
  cases ev with
  | inbox_received iter now =>
    simp only [handle_event, Option.map_eq_some'] at h
    obtain ⟨s', hs', hr⟩ := h
    subst hr
    exact callback_keeps_time K now iter s s' hnot hs'
  | inbox_dropped reason =>
    simp only [handle_event, inbox_dropped_callback, Option.some.injEq] at h
    subst h
    rfl
  | outbox_failed iter reason =>
    simp only [handle_event, outbox_failed_callback, Option.some.injEq] at h
    subst h
    rfl
  | outbox_sent iter =>
    simp only [handle_event, outbox_sent_callback, Option.some.injEq] at h
    subst h
    rfl
  | menu_select row tr =>
    simp only [handle_event, menu_select_callback] at h
    exact (send_request_for_keeps tr _ _ r h).1
  | issue_request period tr =>
    simp only [handle_event] at h
    exact (send_request_for_keeps tr period s r h).1

/-- C10 at `msg_status_error`, a received message that carries a value and a
currency and still is not classified Ok. -/
theorem C10_time_kept_unless_ok_witness :
    (Event.is_ok sample_keys (Event.inbox_received msg_status_error 1700000000) = false ∧
      handle_event sample_keys (Event.inbox_received msg_status_error 1700000000) loaded
        = some (loaded_after_status_error, [])) ∧
    (loaded_after_status_error, ([] : List Int)).1.s_last_updated = loaded.s_last_updated :=
  ⟨⟨by decide, by rfl⟩,
   C10_time_kept_unless_ok sample_keys (Event.inbox_received msg_status_error 1700000000)
     loaded (loaded_after_status_error, []) (by decide) (by rfl)⟩

/-- C11, as the code has it.  Line 88 stores the clock reading `time(NULL)` as it
is, without comparing it with the stored value.  So after every event
`s_last_updated` is what it was or is the clock reading of a received message of
the `ROW_OK` kind; and along every sequence of events whose clock readings never
go back, starting at or after the stored value, `s_last_updated` at the end is
at least what it was at the start. -/
theorem C11_time_follows_clock (K : MessageKeys) (t : Int) (evs : List Event)
    (s s' : State) (h0 : s.s_last_updated ≤ t) (hc : clock_from t evs = true)
    (hr : run K evs s = some s') :
    s.s_last_updated ≤ s'.s_last_updated ∧
    ∀ ev r, handle_event K ev s = some r →
      r.1.s_last_updated = s.s_last_updated ∨
      ∃ iter now, ev = Event.inbox_received iter now ∧ classified_ok K iter = true ∧
        r.1.s_last_updated = now := by
  refine ⟨?_, fun ev r h => handle_event_time K ev s r h⟩
  suffices hgen : ∀ (evs : List Event) (t : Int) (s : State), s.s_last_updated ≤ t →
      clock_from t evs = true → run K evs s = some s' →
      s.s_last_updated ≤ s'.s_last_updated from hgen evs t s h0 hc hr
  intro evs
  induction evs with
  | nil =>
    intro t s _ _ hr
    simp only [run, Option.some.injEq] at hr
    subst hr
    exact le_refl _
  | cons ev evs ih =>
    intro t s h0 hc hr
    simp only [run] at hr
    cases hh : handle_event K ev s with
    | none => rw [hh] at hr; exact absurd hr (by simp)
    | some r =>
      rw [hh] at hr
      rcases handle_event_time K ev s r hh with hsame | ⟨iter, now, hev, _, hnow⟩
      · cases ev with
        | inbox_received iter now =>
          simp only [clock_from, Bool.and_eq_true, decide_eq_true_eq] at hc
          have := ih now r.1 (by omega) hc.2 hr
          omega
        | inbox_dropped reason =>
          have := ih t r.1 (by omega) (by simpa [clock_from] using hc) hr
          omega
        | outbox_failed iter reason =>
          have := ih t r.1 (by omega) (by simpa [clock_from] using hc) hr
          omega
        | outbox_sent iter =>
          have := ih t r.1 (by omega) (by simpa [clock_from] using hc) hr
          omega
        | menu_select row tr =>
          have := ih t r.1 (by omega) (by simpa [clock_from] using hc) hr
          omega
        | issue_request period tr =>
          have := ih t r.1 (by omega) (by simpa [clock_from] using hc) hr
          omega
      · subst hev
        simp only [clock_from, Bool.and_eq_true, decide_eq_true_eq] at hc
        have := ih now r.1 (by omega) hc.2 hr
        omega

/-- C11 at `events_around_value`, started in `loaded` with the clock at 1600000000. -/
theorem C11_time_follows_clock_witness :
    (loaded.s_last_updated ≤ 1600000000 ∧
      clock_from 1600000000 events_around_value = true ∧
      run sample_keys events_around_value loaded = some loaded_after_value) ∧
    (loaded.s_last_updated ≤ loaded_after_value.s_last_updated ∧
      ∀ ev r, handle_event sample_keys ev loaded = some r →
        r.1.s_last_updated = loaded.s_last_updated ∨
        ∃ iter now, ev = Event.inbox_received iter now ∧
          classified_ok sample_keys iter = true ∧ r.1.s_last_updated = now) :=
  ⟨⟨by decide, by decide, by rfl⟩,
   C11_time_follows_clock sample_keys 1600000000 events_around_value loaded
     loaded_after_value (by decide) (by decide) (by rfl)⟩

/-- C11 fails as stated.  After a value reply processed at clock reading
1700000000 the stored time is 1700000000; a second value reply processed at the
earlier reading 1600000000 lowers it to 1600000000. -/
theorem C11_earlier_clock_lowers_time :
    Event.is_ok sample_keys (Event.inbox_received msg_value 1600000000) = true ∧
    (run sample_keys [Event.inbox_received msg_value 1700000000] loaded).map
        (fun s => s.s_last_updated) = some 1700000000 ∧
    (run sample_keys
        [Event.inbox_received msg_value 1700000000,
         Event.inbox_received msg_value 1600000000] loaded).map
        (fun s => s.s_last_updated) = some 1600000000 ∧
    (1600000000 : Int) < 1700000000 := by
  decide

/-- C12.  The scenario: from the loaded state (three idle rows), the three
requests put every row in `ROW_LOADING` with `"Loading..."`; the reply
`{id:1, value:"42.50", currency:"USD"}` makes row 1 `ROW_OK` with `"42.50 USD"`
and stores the clock reading; the reply `{id:0, error:"timeout"}` makes row 0
`ROW_ERROR` with `"Error: timeout"` while row 2 is still loading; a dropped
message after that changes neither the rows, nor the time, nor the selection. -/
theorem C12_scenario :
    loaded.rows =
      [(RowState.ROW_IDLE, "--".toList), (RowState.ROW_IDLE, "--".toList),
       (RowState.ROW_IDLE, "--".toList)] ∧
    (run sample_keys scenario_requests loaded).map
        (fun s => (s.rows, s.s_last_updated, s.s_selected))
      = some ([loading_row, loading_row, loading_row], 0, 0) ∧
    (run sample_keys
        (scenario_requests ++ [Event.inbox_received msg_scenario_value 1700000000]) loaded).map
        (fun s => (s.rows, s.s_last_updated, s.s_selected))
      = some ([loading_row, (RowState.ROW_OK, "42.50 USD".toList), loading_row],
          1700000000, 0) ∧
    (run sample_keys
        (scenario_requests ++ [Event.inbox_received msg_scenario_value 1700000000,
          Event.inbox_received msg_scenario_error 1700000060]) loaded).map
        (fun s => (s.rows, s.s_last_updated, s.s_selected))
      = some ([(RowState.ROW_ERROR, "Error: timeout".toList),
          (RowState.ROW_OK, "42.50 USD".toList), loading_row], 1700000000, 0) ∧
    (run sample_keys
        (scenario_requests ++ [Event.inbox_received msg_scenario_value 1700000000,
          Event.inbox_received msg_scenario_error 1700000060,
          Event.inbox_dropped 2]) loaded).map
        (fun s => (s.rows, s.s_last_updated, s.s_selected))
      = some ([(RowState.ROW_ERROR, "Error: timeout".toList),
          (RowState.ROW_OK, "42.50 USD".toList), loading_row], 1700000000, 0) := by
  refine ⟨?_, ?_, ?_, ?_, ?_⟩ <;> decide

/-- C13.  For every state, the dropped-message callback, the failed-send
callback and the acknowledged-send callback, with any reason code and any
dictionary, return the state they were given, and as events they leave the whole
state as it is and hand nothing to the transport; so an item that is loading is
still loading afterwards. -/
theorem C13_transport_events_change_nothing (K : MessageKeys) (s : State)
    (iter : DictionaryIterator) (reason : Int) :
    inbox_dropped_callback reason s = s ∧
    outbox_failed_callback iter reason s = s ∧
    outbox_sent_callback iter s = s ∧
    handle_event K (Event.inbox_dropped reason) s = some (s, []) ∧
    handle_event K (Event.outbox_failed iter reason) s = some (s, []) ∧
    handle_event K (Event.outbox_sent iter) s = some (s, []) ∧
    run K [Event.inbox_dropped reason, Event.outbox_failed iter reason,
      Event.outbox_sent iter] s = some s := by
  refine ⟨rfl, rfl, rfl, rfl, rfl, rfl, ?_⟩
  simp [run, handle_event, inbox_dropped_callback, outbox_failed_callback,
    outbox_sent_callback]

/-- C14.  For every state whose selection is a valid item and every inbound
message without period tuple, the target is `s_selected`: the callback returns,
the change of the branch the message takes is made to item `s_selected` (error
text, bare error, value, or status line with the state kept), every other item
keeps its state and text, and `s_selected` itself is unchanged. -/
theorem C14_fallback_target_is_selection (K : MessageKeys) (now : Int)
    (iter : DictionaryIterator) (s : State)
    (h : dict_find iter K.MESSAGE_KEY_period = none)
    (hsel : 0 ≤ s.s_selected ∧ s.s_selected < PERIOD_COUNT) :
    received_period K iter s = s.s_selected ∧
    ∃ i s', index s.s_selected = some i ∧ (i : Int) = s.s_selected ∧
      inbox_received_callback K now iter s = some s' ∧
      (∀ j, j ≠ i → s'.s_row_state j = s.s_row_state j ∧
        s'.s_row_subtitle j = s.s_row_subtitle j) ∧
      s'.s_selected = s.s_selected ∧
      (∀ e, cstring_of (dict_find iter K.MESSAGE_KEY_error) = some e →
        s'.s_row_state i = RowState.ROW_ERROR ∧
        s'.s_row_subtitle i = List.take 31 ("Error: ".toList ++ e)) ∧
      (cstring_of (dict_find iter K.MESSAGE_KEY_error) = none →
        cstring_of (dict_find iter K.MESSAGE_KEY_status) = some "error".toList →
        s'.s_row_state i = RowState.ROW_ERROR ∧ s'.s_row_subtitle i = "Error".toList) ∧
      (∀ v c, cstring_of (dict_find iter K.MESSAGE_KEY_error) = none →
        cstring_of (dict_find iter K.MESSAGE_KEY_status) ≠ some "error".toList →
        cstring_of (dict_find iter K.MESSAGE_KEY_total) = some v →
        cstring_of (dict_find iter K.MESSAGE_KEY_currency) = some c →
        s'.s_row_state i = RowState.ROW_OK ∧
        s'.s_row_subtitle i = List.take 31 (v ++ " ".toList ++ c)) ∧
      (∀ st, cstring_of (dict_find iter K.MESSAGE_KEY_error) = none →
        cstring_of (dict_find iter K.MESSAGE_KEY_status) = some st →
        st ≠ "error".toList →
        ¬ ((cstring_of (dict_find iter K.MESSAGE_KEY_total)).isSome = true ∧
           (cstring_of (dict_find iter K.MESSAGE_KEY_currency)).isSome = true) →
        s'.s_row_state i = s.s_row_state i ∧
        s'.s_row_subtitle i = List.take 31 ("Status: ".toList ++ st)) := by
  have hp := received_period_none K iter s h
  obtain ⟨i, hi, hv⟩ := index_eq_some s.s_selected hsel.1 (by simpa using hsel.2)
  have hi' : index (received_period K iter s) = some i := by rw [hp]; exact hi
  obtain ⟨s', hs', hfr, hsl⟩ := callback_frame K now iter s i hi'
  exact ⟨hp, i, s', hi, hv, hs', hfr, hsl, callback_at_target K now iter s s' i hi' hs'⟩

/-- C14 at `msg_value`, which has no period tuple, in the state `loaded`. -/
theorem C14_fallback_target_is_selection_witness :
    (dict_find msg_value sample_keys.MESSAGE_KEY_period = none ∧
      (0 ≤ loaded.s_selected ∧ loaded.s_selected < PERIOD_COUNT)) ∧
    (received_period sample_keys msg_value loaded = loaded.s_selected ∧
    ∃ i s', index loaded.s_selected = some i ∧ (i : Int) = loaded.s_selected ∧
      inbox_received_callback sample_keys 1700000000 msg_value loaded = some s' ∧
      (∀ j, j ≠ i → s'.s_row_state j = loaded.s_row_state j ∧
        s'.s_row_subtitle j = loaded.s_row_subtitle j) ∧
      s'.s_selected = loaded.s_selected ∧
      (∀ e, cstring_of (dict_find msg_value sample_keys.MESSAGE_KEY_error) = some e →
        s'.s_row_state i = RowState.ROW_ERROR ∧
        s'.s_row_subtitle i = List.take 31 ("Error: ".toList ++ e)) ∧
      (cstring_of (dict_find msg_value sample_keys.MESSAGE_KEY_error) = none →
        cstring_of (dict_find msg_value sample_keys.MESSAGE_KEY_status) = some "error".toList →
        s'.s_row_state i = RowState.ROW_ERROR ∧ s'.s_row_subtitle i = "Error".toList) ∧
      (∀ v c, cstring_of (dict_find msg_value sample_keys.MESSAGE_KEY_error) = none →
        cstring_of (dict_find msg_value sample_keys.MESSAGE_KEY_status) ≠ some "error".toList →
        cstring_of (dict_find msg_value sample_keys.MESSAGE_KEY_total) = some v →
        cstring_of (dict_find msg_value sample_keys.MESSAGE_KEY_currency) = some c →
        s'.s_row_state i = RowState.ROW_OK ∧
        s'.s_row_subtitle i = List.take 31 (v ++ " ".toList ++ c)) ∧
      (∀ st, cstring_of (dict_find msg_value sample_keys.MESSAGE_KEY_error) = none →
        cstring_of (dict_find msg_value sample_keys.MESSAGE_KEY_status) = some st →
        st ≠ "error".toList →
        ¬ ((cstring_of (dict_find msg_value sample_keys.MESSAGE_KEY_total)).isSome = true ∧
           (cstring_of (dict_find msg_value sample_keys.MESSAGE_KEY_currency)).isSome = true) →
        s'.s_row_state i = loaded.s_row_state i ∧
        s'.s_row_subtitle i = List.take 31 ("Status: ".toList ++ st))) :=
  ⟨⟨by decide, by decide⟩,
   C14_fallback_target_is_selection sample_keys 1700000000 msg_value loaded
     (by decide) (by decide)⟩

/-- C15.  For every state and every `period` in `[0, 3)`, two calls of
`send_request_for` in a row, whatever the transport reports at each: both
return, the state after the second call is the state after the first, item
`period` is `ROW_LOADING` in it, each call hands over the request `period`
exactly when its transport accepts, and so exactly two requests carrying
`period` are handed over when both accept. -/
theorem C15_reissue_is_idempotent (tr1 tr2 : Transport) (period : Int) (s : State)
    (h0 : 0 ≤ period) (h1 : period < PERIOD_COUNT) :
    ∃ i s1 out1 out2, index period = some i ∧ (i : Int) = period ∧
      send_request_for tr1 period s = some (s1, out1) ∧
      send_request_for tr2 period s1 = some (s1, out2) ∧
      s1.s_row_state i = RowState.ROW_LOADING ∧
      s1.s_row_subtitle i = "Loading...".toList ∧
      out1 = (if tr1.accepts = true then [period] else []) ∧
      out2 = (if tr2.accepts = true then [period] else []) ∧
      (tr1.accepts = true → tr2.accepts = true → out1 ++ out2 = [period, period]) := by
  obtain ⟨i, hi, hv⟩ := index_eq_some period h0 (by simpa using h1)
  refine ⟨i, _, _, _, hi, hv, send_request_for_eq tr1 period s i hi, ?_, ?_, ?_, rfl, rfl, ?_⟩
  · rw [send_request_for_eq tr2 period _ i hi]
    simp
  · simp
  · simp [snprintf, SUBTITLE_SIZE]
  · intro a1 a2
    simp [a1, a2]

/-- C15 at period 1 of the state `loaded`, with an accepting transport twice. -/
theorem C15_reissue_is_idempotent_witness :
    ((0 : Int) ≤ 1 ∧ (1 : Int) < PERIOD_COUNT) ∧
    ∃ i s1 out1 out2, index 1 = some i ∧ (i : Int) = 1 ∧
      send_request_for tr_ok 1 loaded = some (s1, out1) ∧
      send_request_for tr_ok 1 s1 = some (s1, out2) ∧
      s1.s_row_state i = RowState.ROW_LOADING ∧
      s1.s_row_subtitle i = "Loading...".toList ∧
      out1 = (if tr_ok.accepts = true then [1] else []) ∧
      out2 = (if tr_ok.accepts = true then [1] else []) ∧
      (tr_ok.accepts = true → tr_ok.accepts = true → out1 ++ out2 = [1, 1]) :=
  ⟨⟨by decide, by decide⟩,
   C15_reissue_is_idempotent tr_ok tr_ok 1 loaded (by decide) (by decide)⟩

/-- C16.  In every state reached from the loaded state (every row `"--"` after
the initialisation of `prv_window_load`) by any sequence of events, each of the
three subtitles is a string of at most 31 bytes; and whenever a message is
received in such a state, the text stored for the target is the first 31 bytes
of the formatted text, `"Error: "` with the error, the value with a space and
the currency, or `"Status: "` with the status, hence the whole of it when it has
at most 31 bytes and exactly 31 bytes when it has more. -/
theorem C16_text_within_buffer (K : MessageKeys) (evs : List Event) (s : State)
    (hr : run K evs loaded = some s) :
    (∀ i, (s.s_row_subtitle i).length ≤ 31) ∧
    ∀ now iter s' i, index (received_period K iter s) = some i →
      inbox_received_callback K now iter s = some s' →
      (∀ e, cstring_of (dict_find iter K.MESSAGE_KEY_error) = some e →
        s'.s_row_subtitle i = List.take 31 ("Error: ".toList ++ e) ∧
        (31 < ("Error: ".toList ++ e).length → (s'.s_row_subtitle i).length = 31)) ∧
      (∀ v c, cstring_of (dict_find iter K.MESSAGE_KEY_error) = none →
        cstring_of (dict_find iter K.MESSAGE_KEY_status) ≠ some "error".toList →
        cstring_of (dict_find iter K.MESSAGE_KEY_total) = some v →
        cstring_of (dict_find iter K.MESSAGE_KEY_currency) = some c →
        s'.s_row_subtitle i = List.take 31 (v ++ " ".toList ++ c) ∧
        (31 < (v ++ " ".toList ++ c).length → (s'.s_row_subtitle i).length = 31)) ∧
      (∀ st, cstring_of (dict_find iter K.MESSAGE_KEY_error) = none →
        cstring_of (dict_find iter K.MESSAGE_KEY_status) = some st →
        st ≠ "error".toList →
        ¬ ((cstring_of (dict_find iter K.MESSAGE_KEY_total)).isSome = true ∧
           (cstring_of (dict_find iter K.MESSAGE_KEY_currency)).isSome = true) →
        s'.s_row_subtitle i = List.take 31 ("Status: ".toList ++ st) ∧
        (31 < ("Status: ".toList ++ st).length → (s'.s_row_subtitle i).length = 31)) := by
  constructor
  · refine run_invariant K (fun t => ∀ i, (t.s_row_subtitle i).length ≤ 31) ?_ evs loaded s hr ?_
    · intro ev t r h hp i
      exact row_step_length _ _ _ _ (handle_event_row K ev t r h i) (hp i)
    · intro i
      rw [(loaded_rows i).2]
      decide
  · intro now iter s' i hi hcb
    obtain ⟨h1, _, h3, h4⟩ := callback_at_target K now iter s s' i hi hcb
    refine ⟨?_, ?_, ?_⟩
    · intro e he
      refine ⟨(h1 e he).2, fun hlen => ?_⟩
      rw [(h1 e he).2, List.length_take]
      omega
    · intro v c he hs hv hc
      refine ⟨(h3 v c he hs hv hc).2, fun hlen => ?_⟩
      rw [(h3 v c he hs hv hc).2, List.length_take]
      omega
    · intro st he hs hne hvc
      refine ⟨(h4 st he hs hne hvc).2, fun hlen => ?_⟩
      rw [(h4 st he hs hne hvc).2, List.length_take]
      omega

/-- C16 at `events_around_value`, which lead from `loaded` to `loaded_after_value`. -/
theorem C16_text_within_buffer_witness :
    run sample_keys events_around_value loaded = some loaded_after_value ∧
    ∀ i, (loaded_after_value.s_row_subtitle i).length ≤ 31 :=
  ⟨by rfl,
   (C16_text_within_buffer sample_keys events_around_value loaded_after_value (by rfl)).1⟩

/-- C17, as the code has it.  In every state reached from the loaded state by
any sequence of events, each item satisfies `text_consistent`: its text is an
informational `"Status: ..."` line, which line 94 stores without touching the
state, or else loading goes with `"Loading..."`, a value state with the first 31
bytes of value, space and currency, an error state with `"Error"` or
`"Error: ..."`, and idle with `"--"`. -/
theorem C17_text_consistent_up_to_status (K : MessageKeys) (evs : List Event) (s : State)
    (hr : run K evs loaded = some s) :
    ∀ i, text_consistent (s.s_row_state i) (s.s_row_subtitle i) := by
  refine run_invariant K
    (fun t => ∀ i, text_consistent (t.s_row_state i) (t.s_row_subtitle i)) ?_ evs loaded s hr ?_
  · intro ev t r h hp i
    exact row_step_consistent _ _ _ _ (handle_event_row K ev t r h i) (hp i)
  · intro i
    rw [(loaded_rows i).1, (loaded_rows i).2]
    exact Or.inr rfl

/-- C17 at `events_around_value`, which lead from `loaded` to `loaded_after_value`. -/
theorem C17_text_consistent_up_to_status_witness :
    run sample_keys events_around_value loaded = some loaded_after_value ∧
    ∀ i, text_consistent (loaded_after_value.s_row_state i)
      (loaded_after_value.s_row_subtitle i) :=
  ⟨by rfl,
   C17_text_consistent_up_to_status sample_keys events_around_value loaded_after_value
     (by rfl)⟩

/-- C17 fails as stated, in two ways.  After a request for period 2 and the
reply `msg_status`, row 2 is loading with the text `"Status: fetching"`, not the
loading placeholder.  After the reply `msg_long_value`, row 0 is in the value
state with the first 31 digits of the value, a text without any space and so
not of the form value, space, currency. -/
theorem C17_status_line_breaks_consistency :
    ((run sample_keys
        [Event.issue_request 2 tr_ok, Event.inbox_received msg_status 1700000000] loaded).map
        (fun s => (s.s_row_state 2, s.s_row_subtitle 2))
      = some (RowState.ROW_LOADING, "Status: fetching".toList) ∧
      ¬ spec_consistent RowState.ROW_LOADING "Status: fetching".toList) ∧
    ((run sample_keys [Event.inbox_received msg_long_value 1700000000] loaded).map
        (fun s => (s.s_row_state 0, s.s_row_subtitle 0))
      = some (RowState.ROW_OK, "1234567890123456789012345678901".toList) ∧
      ¬ spec_consistent RowState.ROW_OK "1234567890123456789012345678901".toList) := by
  refine ⟨⟨by decide, ?_⟩, by decide, ?_⟩
  · show ¬ ("Status: fetching".toList = "Loading...".toList)
    decide
  rintro ⟨v, c, h⟩
  have hmem : ' ' ∈ "1234567890123456789012345678901".toList := by
    rw [h]
    simp
  revert hmem
  decide

/-- C18, as the code has it.  At startup, from the static initialisers,
`prv_window_load` leaves every row idle with `"--"`, the selection 0 and the
time 0 (unset); `prv_init` then returns for every behaviour of the transport,
with every row in `ROW_LOADING` showing `"Loading..."`, the selection still 0
and the time still 0; the calls are made for 0, 1, 2 in that order, and each
hands over a request carrying its own period exactly when its transport accepts
it: the requests handed over are the accepted periods in increasing order, and
they are 0, 1, 2 when all three are accepted. -/
theorem C18_startup_refresh (tr : Nat → Transport) :
    (∀ i, (prv_window_load static_init).s_row_state i = RowState.ROW_IDLE ∧
      (prv_window_load static_init).s_row_subtitle i = "--".toList) ∧
    (prv_window_load static_init).s_selected = 0 ∧
    (prv_window_load static_init).s_last_updated = 0 ∧
    ∃ s out, prv_init tr static_init = some (s, out) ∧
      (∀ i, s.s_row_state i = RowState.ROW_LOADING ∧
        s.s_row_subtitle i = "Loading...".toList) ∧
      s.s_selected = 0 ∧ s.s_last_updated = 0 ∧
      out = (if (tr 0).accepts = true then [0] else []) ++
        ((if (tr 1).accepts = true then [1] else []) ++
          (if (tr 2).accepts = true then [2] else [])) ∧
      ((tr 0).accepts = true → (tr 1).accepts = true → (tr 2).accepts = true →
        out = [0, 1, 2]) := by
  refine ⟨loaded_rows, rfl, rfl, _, _, prv_init_eq tr static_init, ?_, rfl, rfl, rfl, ?_⟩
  · intro i
    fin_cases i <;> exact ⟨rfl, rfl⟩
  · intro a0 a1 a2
    simp [a0, a1, a2]

/-- C18 with a transport that accepts all three requests: they are handed over
as 0, 1, 2. -/
theorem C18_startup_refresh_witness :
    ((tr_ok.accepts = true ∧ tr_ok.accepts = true ∧ tr_ok.accepts = true) ∧
      (prv_init (fun _ => tr_ok) static_init).map (fun r => r.2) = some [0, 1, 2]) := by
  obtain ⟨_, _, _, s, out, h, _, _, _, _, hall⟩ := C18_startup_refresh (fun _ => tr_ok)
  refine ⟨⟨by decide, by decide, by decide⟩, ?_⟩
  rw [h, hall (by decide) (by decide) (by decide)]
  rfl

/-- C18 fails as stated.  When the outbox is busy for every call, all three rows
are loading and no request at all is handed over; when only the first call
finds it free, all three rows are loading and the one request handed over is
for period 0.  In neither case are requests for 0, 1, 2 issued, one per item. -/
theorem C18_refused_requests_are_not_issued :
    (prv_init (fun _ => tr_busy) static_init).map (fun r => (r.1.rows, r.2))
      = some ([loading_row, loading_row, loading_row], []) ∧
    (prv_init tr_first_only static_init).map (fun r => (r.1.rows, r.2))
      = some ([loading_row, loading_row, loading_row], [0]) ∧
    tr_busy.accepts = false := by
  refine ⟨?_, ?_, ?_⟩ <;> decide

/-- C19.  For every state: a received message leaves every item in the state it
had or in `ROW_OK` or `ROW_ERROR`, so an item that is idle or loading after it
was so before it; no event at all leaves an item idle that was not idle before
it; hence along every sequence of events an item that is not idle at the start
is not idle at the end, and an item that is not idle at some point of a
sequence is not idle at any later point. -/
theorem C19_never_back_to_idle (K : MessageKeys) (s : State) :
    (∀ now iter t, inbox_received_callback K now iter s = some t →
      ∀ k, (t.s_row_state k = s.s_row_state k ∨ t.s_row_state k = RowState.ROW_OK ∨
          t.s_row_state k = RowState.ROW_ERROR) ∧
        (t.s_row_state k = RowState.ROW_IDLE → s.s_row_state k = RowState.ROW_IDLE) ∧
        (t.s_row_state k = RowState.ROW_LOADING →
          s.s_row_state k = RowState.ROW_LOADING)) ∧
    (∀ ev r, handle_event K ev s = some r →
      ∀ k, r.1.s_row_state k = RowState.ROW_IDLE → s.s_row_state k = RowState.ROW_IDLE) ∧
    (∀ evs s', run K evs s = some s' →
      ∀ j, s.s_row_state j ≠ RowState.ROW_IDLE → s'.s_row_state j ≠ RowState.ROW_IDLE) ∧
    (∀ evs1 evs2 mid fin, run K evs1 s = some mid → run K evs2 mid = some fin →
      ∀ j, mid.s_row_state j ≠ RowState.ROW_IDLE →
        fin.s_row_state j ≠ RowState.ROW_IDLE) := by
  have step : ∀ ev (t : State) r, handle_event K ev t = some r →
      ∀ k, r.1.s_row_state k = RowState.ROW_IDLE → t.s_row_state k = RowState.ROW_IDLE := by
    intro ev t r h k hk
    rcases row_step_state _ _ _ _ (handle_event_row K ev t r h k) with e | e | e | e
    · rw [← e]; exact hk
    · rw [e] at hk; exact absurd hk (by decide)
    · rw [e] at hk; exact absurd hk (by decide)
    · rw [e] at hk; exact absurd hk (by decide)
  have seq : ∀ (evs : List Event) (a b : State), run K evs a = some b →
      ∀ j, a.s_row_state j ≠ RowState.ROW_IDLE → b.s_row_state j ≠ RowState.ROW_IDLE := by
    intro evs a b hr j hj
    exact run_invariant K (fun t => t.s_row_state j ≠ RowState.ROW_IDLE)
      (fun ev t r h hp hidle => hp (step ev t r h j hidle)) evs a b hr hj
  refine ⟨?_, fun ev r h => step ev s r h, fun evs s' hr => seq evs s s' hr,
    fun _ evs2 mid fin _ h2 => seq evs2 mid fin h2⟩
  intro now iter t h k
  have hk := callback_state K now iter s t h k
  refine ⟨hk, fun hidle => ?_, fun hload => ?_⟩
  · rcases hk with e | e | e
    · rw [← e]; exact hidle
    · rw [e] at hidle; exact absurd hidle (by decide)
    · rw [e] at hidle; exact absurd hidle (by decide)
  · rcases hk with e | e | e
    · rw [← e]; exact hload
    · rw [e] at hload; exact absurd hload (by decide)
    · rw [e] at hload; exact absurd hload (by decide)

/-- C19 at the all-idle state `loaded`: the reply `msg_status_error` puts item 2
in error and no item in loading; the request for period 2 leaves idle only what
was idle; and after that request, which takes item 2 out of idle, the events of
`events_after_request_2` (status line, status of error, dropped message) leave
item 2 not idle. -/
theorem C19_never_back_to_idle_witness :
    (inbox_received_callback sample_keys 1700000000 msg_status_error loaded
        = some loaded_after_status_error ∧
      handle_event sample_keys (Event.issue_request 2 tr_ok) loaded
        = some (loaded_requested_2, [2]) ∧
      run sample_keys [Event.issue_request 2 tr_ok] loaded = some loaded_requested_2 ∧
      run sample_keys events_after_request_2 loaded_requested_2 = some requested_2_error ∧
      loaded_requested_2.s_row_state 2 ≠ RowState.ROW_IDLE) ∧
    ((∀ k, (loaded_after_status_error.s_row_state k = loaded.s_row_state k ∨
          loaded_after_status_error.s_row_state k = RowState.ROW_OK ∨
          loaded_after_status_error.s_row_state k = RowState.ROW_ERROR) ∧
        (loaded_after_status_error.s_row_state k = RowState.ROW_IDLE →
          loaded.s_row_state k = RowState.ROW_IDLE) ∧
        (loaded_after_status_error.s_row_state k = RowState.ROW_LOADING →
          loaded.s_row_state k = RowState.ROW_LOADING)) ∧
      (∀ k, (loaded_requested_2, ([2] : List Int)).1.s_row_state k = RowState.ROW_IDLE →
        loaded.s_row_state k = RowState.ROW_IDLE) ∧
      requested_2_error.s_row_state 2 ≠ RowState.ROW_IDLE) :=
  ⟨⟨by rfl, by rfl, by rfl, by rfl, by decide⟩,
   (C19_never_back_to_idle sample_keys loaded).1 1700000000 msg_status_error
     loaded_after_status_error (by rfl),
   (C19_never_back_to_idle sample_keys loaded).2.1 (Event.issue_request 2 tr_ok)
     (loaded_requested_2, [2]) (by rfl),
   (C19_never_back_to_idle sample_keys loaded).2.2.2 [Event.issue_request 2 tr_ok]
     events_after_request_2 loaded_requested_2 requested_2_error (by rfl) (by rfl) 2
     (by decide)⟩

/-- C20.  The selection starts at 0 and is written by a select click only; so
for every sequence of events whose select clicks are on rows in `[0, 3)` (and
whose direct requests are for periods in `[0, 3)`), started in the loaded state:
every event is served without out-of-bounds access, the selection is in
`[0, 3)` at the end, and for every message without period tuple received then,
the fallback target `s_selected` is a valid cell and the callback returns
without changing the selection. -/
theorem C20_selection_stays_valid (K : MessageKeys) (evs : List Event)
    (hin : ∀ ev ∈ evs, Event.in_range ev = true) :
    loaded.s_selected = 0 ∧
    (∀ ev s r, handle_event K ev s = some r →
      r.1.s_selected = s.s_selected ∨
      ∃ row tr, ev = Event.menu_select row tr ∧ r.1.s_selected = (row : Int)) ∧
    ∃ s, run K evs loaded = some s ∧
      0 ≤ s.s_selected ∧ s.s_selected < PERIOD_COUNT ∧
      ∀ now iter, dict_find iter K.MESSAGE_KEY_period = none →
        ∃ i s', received_period K iter s = s.s_selected ∧
          index (received_period K iter s) = some i ∧
          inbox_received_callback K now iter s = some s' ∧
          s'.s_selected = s.s_selected := by
  refine ⟨rfl, fun ev s r h => handle_event_selected K ev s r h, ?_⟩
  obtain ⟨s, hs, h0, h1⟩ := run_defined K evs loaded (by decide) hin
  refine ⟨s, hs, h0, h1, ?_⟩
  intro now iter hnone
  obtain ⟨i, hi⟩ := target_valid K iter s (fun _ => ⟨h0, h1⟩)
  obtain ⟨s', hs', _, hsl⟩ := callback_frame K now iter s i hi
  exact ⟨i, s', received_period_none K iter s hnone, hi, hs', hsl⟩

/-- C20 at a select click on row 2 followed by a reply without period tuple. -/
theorem C20_selection_stays_valid_witness :
    (∀ ev ∈ [Event.menu_select 2 tr_ok, Event.inbox_received msg_error_no_period 1700000000],
      Event.in_range ev = true) ∧
    (loaded.s_selected = 0 ∧
    (∀ ev s r, handle_event sample_keys ev s = some r →
      r.1.s_selected = s.s_selected ∨
      ∃ row tr, ev = Event.menu_select row tr ∧ r.1.s_selected = (row : Int)) ∧
    ∃ s, run sample_keys
        [Event.menu_select 2 tr_ok, Event.inbox_received msg_error_no_period 1700000000]
        loaded = some s ∧
      0 ≤ s.s_selected ∧ s.s_selected < PERIOD_COUNT ∧
      ∀ now iter, dict_find iter sample_keys.MESSAGE_KEY_period = none →
        ∃ i s', received_period sample_keys iter s = s.s_selected ∧
          index (received_period sample_keys iter s) = some i ∧
          inbox_received_callback sample_keys now iter s = some s' ∧
          s'.s_selected = s.s_selected) :=
  ⟨by simp [Event.in_range],
   C20_selection_stays_valid sample_keys
     [Event.menu_select 2 tr_ok, Event.inbox_received msg_error_no_period 1700000000]
     (by simp [Event.in_range])⟩

end PebbleShop
